import Mathlib

/-
Verification of the Notion webhook integration
(zerver/webhooks/notion/view.py) against its specification.

The payload data model is a shallow embedding of decoded JSON values as
received by the endpoint.  The view code manipulates payloads through the
WildValue wrapper of zerver/lib/validator.py (part of the repository but
outside the packaged sources); its operations are embedded here following
their documented semantics:
  - WildValue.get(key, default) returns the wrapped value when the
    underlying value is a dict containing the key, and the default
    otherwise (never raising);
  - indexing (payload["k"]) raises ValidationError when the underlying
    value is not a dict or lacks the key;
  - tame(check_string) raises ValidationError unless the value is a str;
  - tame(check_none_or(check_string)) additionally accepts None;
  - tame(check_list(check_dict [("id", check_string), ("type", check_string)]))
    raises ValidationError unless the value is a list in which EVERY
    element is a dict carrying string "id" and "type" entries;
  - bool(wild_value) is the Python truthiness of the underlying value.

External HTTP lookups (requests.get against the Notion API) are modelled
by an oracle (structure Lookup): `none` stands for any failed fetch
(non-200 status, network error, or JSON decoding error), `some body` for
a 200 response whose decoded JSON body is `body`.
-/

namespace NotionWebhook

/-- Decoded JSON values, as produced by the JSON body parser.  Numbers are
modelled as integers; no claim involves numeric payload fields.  Objects
are association lists (Python dicts have unique keys; lookups here take
the first match, which coincides with dict behaviour on duplicate-free
lists). -/
inductive Json where
  | null : Json
  | bool : Bool → Json
  | num : Int → Json
  | str : String → Json
  | arr : List Json → Json
  | obj : List (String × Json) → Json

/-- Python errors that the view code can raise or swallow.  ValidationError
comes from taming wild values, UnsupportedWebhookEventTypeError from the
dispatch entry point; AttributeError / TypeError / KeyError can occur
inside the fetched-record parsing (where they are caught and turned into
fallbacks). -/
inductive PyErr where
  | validationError : PyErr
  | unsupportedEventType : String → PyErr
  | attributeError : PyErr
  | typeError : PyErr
  | keyError : PyErr
deriving DecidableEq

/-- Python truthiness of a JSON value: None, False, 0, "", [] and the empty
dict are falsy, everything else is truthy. -/
def pyTruthy : Json → Bool
  | .null => false
  | .bool b => b
  | .num n => n != 0
  | .str s => s != ""
  | .arr l => !l.isEmpty
  | .obj l => !l.isEmpty

/-- First-match lookup in a JSON object association list (dict access). -/
def plookup (l : List (String × Json)) (k : String) : Option Json :=
  (l.find? fun kv => kv.1 == k).map fun kv => kv.2

/-- Python equality of a JSON value against a string literal: only a str
with those exact contents compares equal. -/
def isStrEq (j : Json) (s : String) : Bool :=
  match j with
  | .str t => t == s
  | _ => false

/-- Python dict.get(k, d) on a value already known to be a dict. -/
def pyGetD (j : Json) (k : String) (d : Json) : Json :=
  match j with
  | .obj l => (plookup l k).getD d
  | _ => d

/-- Python x.get(k, d) on arbitrary values: dicts return the entry or the
default, any other value raises AttributeError (no .get method). -/
def pyGetAttrD (j : Json) (k : String) (d : Json) : Except PyErr Json :=
  match j with
  | .obj l => .ok ((plookup l k).getD d)
  | _ => .error .attributeError

/-- Character-list test: does the first list start the second? -/
def startsWithChars : List Char → List Char → Bool
  | [], _ => true
  | _ :: _, [] => false
  | a :: as, b :: bs => a == b && startsWithChars as bs

/-- Character-list substring test (needle, then haystack). -/
def hasSubChars : List Char → List Char → Bool
  | needle, [] => needle.isEmpty
  | needle, c :: cs => startsWithChars needle (c :: cs) || hasSubChars needle cs

/-- Python `k in x` for a string key k: key membership for dicts, element
membership for lists, substring for strings, TypeError otherwise. -/
def pyContains (j : Json) (k : String) : Except PyErr Bool :=
  match j with
  | .obj l => .ok (l.any fun kv => kv.1 == k)
  | .arr l => .ok (l.any fun v => isStrEq v k)
  | .str s => .ok (hasSubChars k.data s.data)
  | _ => .error .typeError

/-- Python x[k] for a string key: dict lookup (KeyError when missing),
TypeError on any non-dict. -/
def pyIndex (j : Json) (k : String) : Except PyErr Json :=
  match j with
  | .obj l =>
    match plookup l k with
    | some v => .ok v
    | none => .error .keyError
  | _ => .error .typeError

/-- Python x.values(): the values of a dict, AttributeError otherwise. -/
def pyValues (j : Json) : Except PyErr (List Json) :=
  match j with
  | .obj l => .ok (l.map fun kv => kv.2)
  | _ => .error .attributeError

mutual
/-- Python str(x) of a JSON value (used where the view interpolates a
dynamically typed value into an f-string). -/
def pyStr : Json → String
  | .null => "None"
  | .bool true => "True"
  | .bool false => "False"
  | .num n => toString n
  | .str s => s
  | .arr l => "[" ++ pyReprList l ++ "]"
  | .obj l => "\x7b" ++ pyReprObj l ++ "\x7d"

/-- Python repr(x) of a JSON value, used for container elements. -/
def pyRepr : Json → String
  | .null => "None"
  | .bool true => "True"
  | .bool false => "False"
  | .num n => toString n
  | .str s => "\x27" ++ s ++ "\x27"
  | .arr l => "[" ++ pyReprList l ++ "]"
  | .obj l => "\x7b" ++ pyReprObj l ++ "\x7d"

/-- Comma-separated reprs of list elements. -/
def pyReprList : List Json → String
  | [] => ""
  | [x] => pyRepr x
  | x :: y :: xs => pyRepr x ++ ", " ++ pyReprList (y :: xs)

/-- Comma-separated reprs of dict entries. -/
def pyReprObj : List (String × Json) → String
  | [] => ""
  | [kv] => "\x27" ++ kv.1 ++ "\x27: " ++ pyRepr kv.2
  | kv :: kw :: xs => "\x27" ++ kv.1 ++ "\x27: " ++ pyRepr kv.2 ++ ", " ++ pyReprObj (kw :: xs)
end

/-- WildValue.get(key): the wrapped entry when the payload is a dict
containing the key, otherwise the supplied default (the view always uses
the implicit default None or an explicit empty dict). -/
def wGet (j : Json) (k : String) (d : Json) : Json :=
  match j with
  | .obj l => (plookup l k).getD d
  | _ => d

/-- WildValue indexing payload["k"]: raises ValidationError when the value
is not a dict with that key. -/
def wIndex (j : Json) (k : String) : Except PyErr Json :=
  match j with
  | .obj l =>
    match plookup l k with
    | some v => .ok v
    | none => .error .validationError
  | _ => .error .validationError

/-- tame(check_string): the string, or ValidationError. -/
def check_string (j : Json) : Except PyErr String :=
  match j with
  | .str s => .ok s
  | _ => .error .validationError

/-- tame(check_none_or(check_string)): None or the string, else
ValidationError. -/
def check_none_or_string (j : Json) : Except PyErr (Option String) :=
  match j with
  | .null => .ok none
  | .str s => .ok (some s)
  | _ => .error .validationError

/-- The external lookup capability: each operation yields the decoded JSON
body of a 200 response, or `none` for any failure (non-200 status,
network error, body decoding error).  These stand for the requests.get
calls of get_page_title, get_database_title and get_user_name. -/
structure Lookup where
  page : String → Option Json
  db : String → Option Json
  user : String → Option Json

/-- The always-failing lookup oracle (every fetch fails). -/
def L0 : Lookup := ⟨fun _ => none, fun _ => none, fun _ => none⟩

/-- One step of the title search of extract_page_title (view.py lines
45-50 and 54-59): given one property value, yield its title text when the
property is a dict typed "title" whose "title" entry is a non-empty list
headed by a dict with truthy "plain_text"; yield none to continue the
scan; raise AttributeError when the first span is not a dict (Python
`title_content[0].get(...)` on a non-dict). -/
def titleTextOfProp (prop_value : Json) : Except PyErr (Option Json) :=
  match prop_value with
  | .obj pv =>
    if isStrEq ((plookup pv "type").getD .null) "title" then
      match (plookup pv "title").getD (.arr []) with
      | .arr (s :: _) =>
        match s with
        | .obj sp =>
          let pt := (plookup sp "plain_text").getD .null
          if pyTruthy pt then .ok (some pt) else .ok none
        | _ => .error .attributeError
      | _ => .ok none
    else .ok none
  | _ => .ok none

/-- extract_page_title, first loop (view.py lines 42-50): walk the common
property names in order, and for each name present in the properties
dict, stop at the first whose property yields title text. -/
def pageLoop1 (properties : Json) : List String → Except PyErr (Option Json)
  | [] => .ok none
  | n :: ns =>
    match pyContains properties n with
    | .error e => .error e
    | .ok false => pageLoop1 properties ns
    | .ok true =>
      match pyIndex properties n with
      | .error e => .error e
      | .ok pv =>
        match titleTextOfProp pv with
        | .error e => .error e
        | .ok (some t) => .ok (some t)
        | .ok none => pageLoop1 properties ns

/-- extract_page_title, fallback loop (view.py lines 53-59): walk all
property values in order, stopping at the first yielding title text. -/
def pageLoop2 : List Json → Except PyErr (Option Json)
  | [] => .ok none
  | v :: vs =>
    match titleTextOfProp v with
    | .error e => .error e
    | .ok (some t) => .ok (some t)
    | .ok none => pageLoop2 vs

/-- extract_page_title (view.py lines 34-61). -/
def extract_page_title (page_data : Json) : Except PyErr Json :=
  if pyTruthy page_data = false then .ok (.str "Untitled Page")
  else
    match pyContains page_data "properties" with
    | .error e => .error e
    | .ok false => .ok (.str "Untitled Page")
    | .ok true =>
      match pyGetAttrD page_data "properties" (.obj []) with
      | .error e => .error e
      | .ok properties =>
        match pageLoop1 properties ["title", "Title", "Name", "name"] with
        | .error e => .error e
        | .ok (some t) => .ok t
        | .ok none =>
          match pyValues properties with
          | .error e => .error e
          | .ok vs =>
            match pageLoop2 vs with
            | .error e => .error e
            | .ok (some t) => .ok t
            | .ok none => .ok (.str "Untitled Page")

/-- Scan of the database title list (view.py lines 71-75): first dict
entry with truthy plain_text, else the fallback title. -/
def dbScan : List Json → Json
  | [] => .str "Untitled Database"
  | t :: ts =>
    match t with
    | .obj l =>
      let pt := (plookup l "plain_text").getD .null
      if pyTruthy pt then pt else dbScan ts
    | _ => dbScan ts

/-- extract_database_title (view.py lines 64-77). -/
def extract_database_title (database_data : Json) : Except PyErr Json :=
  if pyTruthy database_data = false then .ok (.str "Untitled Database")
  else
    match pyGetAttrD database_data "title" (.arr []) with
    | .error e => .error e
    | .ok title_list =>
      match title_list with
      | .arr l => .ok (dbScan l)
      | _ => .ok (.str "Untitled Database")

/-- get_page_title (view.py lines 80-96): without a token, fall back to
the id; otherwise fetch the page record, extract its title, and fall back
to the id on any failure (non-200 response, network error, or an
exception raised while parsing the record).  The interpolation of the
extracted value into message strings is applied here via pyStr. -/
def get_page_title (notion_token : String) (page_id : String) (L : Lookup) : String :=
  if notion_token = "" then page_id
  else
    match L.page page_id with
    | none => page_id
    | some page_data =>
      match extract_page_title page_data with
      | .ok t => pyStr t
      | .error _ => page_id

/-- get_database_title (view.py lines 99-115), same failure policy. -/
def get_database_title (notion_token : String) (database_id : String) (L : Lookup) : String :=
  if notion_token = "" then database_id
  else
    match L.db database_id with
    | none => database_id
    | some database_data =>
      match extract_database_title database_data with
      | .ok t => pyStr t
      | .error _ => database_id

/-- Character-level worker for Python str.title(): uppercase each letter
starting a letter run, lowercase the other letters. -/
def titleCaseAux : Bool → List Char → List Char
  | _, [] => []
  | prevAlpha, c :: cs =>
    (if c.isAlpha then (if prevAlpha then c.toLower else c.toUpper) else c)
      :: titleCaseAux c.isAlpha cs

/-- Python str.title() (ASCII letters). -/
def pyTitleCase (s : String) : String :=
  ⟨titleCaseAux false s.data⟩

/-- Python email.split("@")[0]: the characters before the first at sign,
or the whole string when there is none. -/
def emailLocalPart (s : String) : String :=
  ⟨s.data.takeWhile (fun c => c != '@')⟩

/-- Python .replace(".", " ") for the single-character pattern used by
get_user_name. -/
def dotsToSpaces (s : String) : String :=
  ⟨s.data.map (fun c => if c == '.' then ' ' else c)⟩

/-- get_user_name (view.py lines 118-148): empty id gives "Notion User";
no token gives "user: id"; otherwise fetch the user record, prefer a
truthy "name" field, fall back to a name derived from the email local
part for person-typed records, else "user: id"; any failure (failed
fetch, or an exception while reading the record) also gives "user: id". -/
def get_user_name (notion_token : String) (user_id : String) (L : Lookup) : String :=
  if user_id = "" then "Notion User"
  else if notion_token = "" then "user: " ++ user_id
  else
    match L.user user_id with
    | none => "user: " ++ user_id
    | some user_data =>
      match pyGetAttrD user_data "name" .null with
      | .error _ => "user: " ++ user_id
      | .ok name =>
        if pyTruthy name then pyStr name
        else if isStrEq (pyGetD user_data "type" .null) "person" then
          let person := pyGetD user_data "person" (.obj [])
          match pyGetAttrD person "email" (.str "") with
          | .error _ => "user: " ++ user_id
          | .ok email =>
            match email with
            | .str e =>
              if e ≠ "" then pyTitleCase (dotsToSpaces (emailLocalPart e))
              else "user: " ++ user_id
            | _ => "user: " ++ user_id
        else "user: " ++ user_id

/-- check_dict [("id", check_string), ("type", check_string)] applied to
one element of the authors list: the element must be a dict whose "id"
and "type" entries are strings (extra keys are allowed); the validated id
and type are returned. -/
def tameAuthorEntry (j : Json) : Except PyErr (String × String) :=
  match j with
  | .obj l =>
    match plookup l "id", plookup l "type" with
    | some (.str i), some (.str t) => .ok (i, t)
    | _, _ => .error .validationError
  | _ => .error .validationError

/-- Element-wise validation of the authors list: every element is tamed
in order, stopping at the first failure. -/
def tameAuthorList : List Json → Except PyErr (List (String × String))
  | [] => .ok []
  | x :: xs =>
    match tameAuthorEntry x with
    | .error e => .error e
    | .ok v =>
      match tameAuthorList xs with
      | .error e => .error e
      | .ok vs => .ok (v :: vs)

/-- check_list over tameAuthorEntry: the value must be a list and every
element must validate. -/
def tameAuthors (j : Json) : Except PyErr (List (String × String)) :=
  match j with
  | .arr l => tameAuthorList l
  | _ => .error .validationError

/-- get_author_name (view.py lines 151-172): empty or missing authors
give the empty string; otherwise the whole list is tamed (raising on any
malformed element), the first id is resolved when non-empty, and a
co-author count is appended when the list has more than one entry. -/
def get_author_name (payload : Json) (notion_token : String) (L : Lookup) : Except PyErr String :=
  let authors := wGet payload "authors" .null
  if pyTruthy authors then
    match tameAuthors authors with
    | .error e => .error e
    | .ok authors_list =>
      match authors_list with
      | [] => .ok ""
      | first :: rest =>
        let user_id := first.1
        if user_id ≠ "" then
          let author_name := get_user_name notion_token user_id L
          if rest.length ≥ 1 then
            .ok (author_name ++ " (+" ++ toString rest.length ++ " other"
              ++ (if rest.length > 1 then "s" else "") ++ ")")
          else .ok author_name
        else .ok ""
  else .ok ""

/-- The common formatter idiom payload["entity"]["id"].tame(check_string):
raises ValidationError when "entity" is missing, not a dict, lacks "id",
or the id is not a string. -/
def entityId (payload : Json) : Except PyErr String :=
  match wIndex payload "entity" with
  | .error e => .error e
  | .ok entity =>
    match wIndex entity "id" with
    | .error e => .error e
    | .ok i => check_string i

/-- get_page_content_updated_message (view.py lines 175-187). -/
def get_page_content_updated_message (payload : Json) (notion_token : String) (L : Lookup) :
    Except PyErr (String × String) :=
  match entityId payload with
  | .error e => .error e
  | .ok page_id =>
    if page_id = "" then .ok ("Notion Page", "Page content was updated")
    else
      let page_title := get_page_title notion_token page_id L
      match get_author_name payload notion_token L with
      | .error e => .error e
      | .ok author =>
        if author ≠ "" then
          .ok ("page: " ++ page_title, "**" ++ author ++ "** updated page **" ++ page_title ++ "** content")
        else
          .ok ("page: " ++ page_title, "Page **" ++ page_title ++ "** content was updated")

/-- get_page_created_message (view.py lines 190-202). -/
def get_page_created_message (payload : Json) (notion_token : String) (L : Lookup) :
    Except PyErr (String × String) :=
  match entityId payload with
  | .error e => .error e
  | .ok page_id =>
    if page_id = "" then .ok ("Notion Page", "New page was created")
    else
      let page_title := get_page_title notion_token page_id L
      match get_author_name payload notion_token L with
      | .error e => .error e
      | .ok author =>
        if author ≠ "" then
          .ok ("page: " ++ page_title, "**" ++ author ++ "** created page **" ++ page_title ++ "**")
        else
          .ok ("page: " ++ page_title, "New page **" ++ page_title ++ "** was created")

/-- get_page_deleted_message (view.py lines 205-217). -/
def get_page_deleted_message (payload : Json) (notion_token : String) (L : Lookup) :
    Except PyErr (String × String) :=
  match entityId payload with
  | .error e => .error e
  | .ok page_id =>
    if page_id = "" then .ok ("Notion Page", "Page was moved to trash")
    else
      let page_title := get_page_title notion_token page_id L
      match get_author_name payload notion_token L with
      | .error e => .error e
      | .ok author =>
        if author ≠ "" then
          .ok ("page: " ++ page_title, "**" ++ author ++ "** moved page **" ++ page_title ++ "** to trash")
        else
          .ok ("page: " ++ page_title, "Page **" ++ page_title ++ "** was moved to trash")

/-- get_page_locked_message (view.py lines 220-232). -/
def get_page_locked_message (payload : Json) (notion_token : String) (L : Lookup) :
    Except PyErr (String × String) :=
  match entityId payload with
  | .error e => .error e
  | .ok page_id =>
    if page_id = "" then .ok ("Notion Page", "Page was locked")
    else
      let page_title := get_page_title notion_token page_id L
      match get_author_name payload notion_token L with
      | .error e => .error e
      | .ok author =>
        if author ≠ "" then
          .ok ("page: " ++ page_title, "**" ++ author ++ "** locked page **" ++ page_title ++ "**")
        else
          .ok ("page: " ++ page_title, "Page **" ++ page_title ++ "** was locked")

/-- get_page_moved_message (view.py lines 235-247). -/
def get_page_moved_message (payload : Json) (notion_token : String) (L : Lookup) :
    Except PyErr (String × String) :=
  match entityId payload with
  | .error e => .error e
  | .ok page_id =>
    if page_id = "" then .ok ("Notion Page", "Page was moved")
    else
      let page_title := get_page_title notion_token page_id L
      match get_author_name payload notion_token L with
      | .error e => .error e
      | .ok author =>
        if author ≠ "" then
          .ok ("page: " ++ page_title, "**" ++ author ++ "** moved page **" ++ page_title ++ "**")
        else
          .ok ("page: " ++ page_title, "Page **" ++ page_title ++ "** was moved")

/-- get_page_properties_updated_message (view.py lines 250-262). -/
def get_page_properties_updated_message (payload : Json) (notion_token : String) (L : Lookup) :
    Except PyErr (String × String) :=
  match entityId payload with
  | .error e => .error e
  | .ok page_id =>
    if page_id = "" then .ok ("Notion Page", "Page properties were updated")
    else
      let page_title := get_page_title notion_token page_id L
      match get_author_name payload notion_token L with
      | .error e => .error e
      | .ok author =>
        if author ≠ "" then
          .ok ("page: " ++ page_title, "**" ++ author ++ "** updated page **" ++ page_title ++ "** properties")
        else
          .ok ("page: " ++ page_title, "Page **" ++ page_title ++ "** properties were updated")

/-- get_page_undeleted_message (view.py lines 265-277). -/
def get_page_undeleted_message (payload : Json) (notion_token : String) (L : Lookup) :
    Except PyErr (String × String) :=
  match entityId payload with
  | .error e => .error e
  | .ok page_id =>
    if page_id = "" then .ok ("Notion Page", "Page was restored from trash")
    else
      let page_title := get_page_title notion_token page_id L
      match get_author_name payload notion_token L with
      | .error e => .error e
      | .ok author =>
        if author ≠ "" then
          .ok ("page: " ++ page_title, "**" ++ author ++ "** restored page **" ++ page_title ++ "** from trash")
        else
          .ok ("page: " ++ page_title, "Page **" ++ page_title ++ "** was restored from trash")

/-- get_page_unlocked_message (view.py lines 280-292). -/
def get_page_unlocked_message (payload : Json) (notion_token : String) (L : Lookup) :
    Except PyErr (String × String) :=
  match entityId payload with
  | .error e => .error e
  | .ok page_id =>
    if page_id = "" then .ok ("Notion Page", "Page was unlocked")
    else
      let page_title := get_page_title notion_token page_id L
      match get_author_name payload notion_token L with
      | .error e => .error e
      | .ok author =>
        if author ≠ "" then
          .ok ("page: " ++ page_title, "**" ++ author ++ "** unlocked page **" ++ page_title ++ "**")
        else
          .ok ("page: " ++ page_title, "Page **" ++ page_title ++ "** was unlocked")

/-- get_database_content_updated_message (view.py lines 295-307). -/
def get_database_content_updated_message (payload : Json) (notion_token : String) (L : Lookup) :
    Except PyErr (String × String) :=
  match entityId payload with
  | .error e => .error e
  | .ok database_id =>
    if database_id = "" then .ok ("Notion Database", "Database content was updated")
    else
      let database_title := get_database_title notion_token database_id L
      match get_author_name payload notion_token L with
      | .error e => .error e
      | .ok author =>
        if author ≠ "" then
          .ok ("db: " ++ database_title, "**" ++ author ++ "** updated database **" ++ database_title ++ "** content")
        else
          .ok ("db: " ++ database_title, "Database **" ++ database_title ++ "** content was updated")

/-- get_database_created_message (view.py lines 310-322). -/
def get_database_created_message (payload : Json) (notion_token : String) (L : Lookup) :
    Except PyErr (String × String) :=
  match entityId payload with
  | .error e => .error e
  | .ok database_id =>
    if database_id = "" then .ok ("Notion Database", "New database was created")
    else
      let database_title := get_database_title notion_token database_id L
      match get_author_name payload notion_token L with
      | .error e => .error e
      | .ok author =>
        if author ≠ "" then
          .ok ("db: " ++ database_title, "**" ++ author ++ "** created database **" ++ database_title ++ "**")
        else
          .ok ("db: " ++ database_title, "New database **" ++ database_title ++ "** was created")

/-- get_database_deleted_message (view.py lines 325-337). -/
def get_database_deleted_message (payload : Json) (notion_token : String) (L : Lookup) :
    Except PyErr (String × String) :=
  match entityId payload with
  | .error e => .error e
  | .ok database_id =>
    if database_id = "" then .ok ("Notion Database", "Database was moved to trash")
    else
      let database_title := get_database_title notion_token database_id L
      match get_author_name payload notion_token L with
      | .error e => .error e
      | .ok author =>
        if author ≠ "" then
          .ok ("db: " ++ database_title, "**" ++ author ++ "** moved database **" ++ database_title ++ "** to trash")
        else
          .ok ("db: " ++ database_title, "Database **" ++ database_title ++ "** was moved to trash")

/-- get_database_moved_message (view.py lines 340-352). -/
def get_database_moved_message (payload : Json) (notion_token : String) (L : Lookup) :
    Except PyErr (String × String) :=
  match entityId payload with
  | .error e => .error e
  | .ok database_id =>
    if database_id = "" then .ok ("Notion Database", "Database was moved")
    else
      let database_title := get_database_title notion_token database_id L
      match get_author_name payload notion_token L with
      | .error e => .error e
      | .ok author =>
        if author ≠ "" then
          .ok ("db: " ++ database_title, "**" ++ author ++ "** moved database **" ++ database_title ++ "**")
        else
          .ok ("db: " ++ database_title, "Database **" ++ database_title ++ "** was moved")

/-- get_database_schema_updated_message (view.py lines 355-367). -/
def get_database_schema_updated_message (payload : Json) (notion_token : String) (L : Lookup) :
    Except PyErr (String × String) :=
  match entityId payload with
  | .error e => .error e
  | .ok database_id =>
    if database_id = "" then .ok ("Notion Database", "Database schema was updated")
    else
      let database_title := get_database_title notion_token database_id L
      match get_author_name payload notion_token L with
      | .error e => .error e
      | .ok author =>
        if author ≠ "" then
          .ok ("db: " ++ database_title, "**" ++ author ++ "** updated database **" ++ database_title ++ "** schema")
        else
          .ok ("db: " ++ database_title, "Database **" ++ database_title ++ "** schema was updated")

/-- get_database_undeleted_message (view.py lines 370-382). -/
def get_database_undeleted_message (payload : Json) (notion_token : String) (L : Lookup) :
    Except PyErr (String × String) :=
  match entityId payload with
  | .error e => .error e
  | .ok database_id =>
    if database_id = "" then .ok ("Notion Database", "Database was restored from trash")
    else
      let database_title := get_database_title notion_token database_id L
      match get_author_name payload notion_token L with
      | .error e => .error e
      | .ok author =>
        if author ≠ "" then
          .ok ("db: " ++ database_title, "**" ++ author ++ "** restored database **" ++ database_title ++ "** from trash")
        else
          .ok ("db: " ++ database_title, "Database **" ++ database_title ++ "** was restored from trash")

/-- get_data_source_content_updated_message (view.py lines 385-399). -/
def get_data_source_content_updated_message (payload : Json) (notion_token : String) (L : Lookup) :
    Except PyErr (String × String) :=
  match entityId payload with
  | .error e => .error e
  | .ok data_source_id =>
    if data_source_id = "" then .ok ("Notion Data Source", "Data source content was updated")
    else
      let data_source_title := get_database_title notion_token data_source_id L
      match get_author_name payload notion_token L with
      | .error e => .error e
      | .ok author =>
        if author ≠ "" then
          .ok ("ds: " ++ data_source_title, "**" ++ author ++ "** updated data source **" ++ data_source_title ++ "** content")
        else
          .ok ("ds: " ++ data_source_title, "Data source **" ++ data_source_title ++ "** content was updated")

/-- get_data_source_created_message (view.py lines 402-414). -/
def get_data_source_created_message (payload : Json) (notion_token : String) (L : Lookup) :
    Except PyErr (String × String) :=
  match entityId payload with
  | .error e => .error e
  | .ok data_source_id =>
    if data_source_id = "" then .ok ("Notion Data Source", "New data source was created")
    else
      let data_source_title := get_database_title notion_token data_source_id L
      match get_author_name payload notion_token L with
      | .error e => .error e
      | .ok author =>
        if author ≠ "" then
          .ok ("ds: " ++ data_source_title, "**" ++ author ++ "** created data source **" ++ data_source_title ++ "**")
        else
          .ok ("ds: " ++ data_source_title, "New data source **" ++ data_source_title ++ "** was created")

/-- get_data_source_deleted_message (view.py lines 417-429). -/
def get_data_source_deleted_message (payload : Json) (notion_token : String) (L : Lookup) :
    Except PyErr (String × String) :=
  match entityId payload with
  | .error e => .error e
  | .ok data_source_id =>
    if data_source_id = "" then .ok ("Notion Data Source", "Data source was moved to trash")
    else
      let data_source_title := get_database_title notion_token data_source_id L
      match get_author_name payload notion_token L with
      | .error e => .error e
      | .ok author =>
        if author ≠ "" then
          .ok ("ds: " ++ data_source_title, "**" ++ author ++ "** moved data source **" ++ data_source_title ++ "** to trash")
        else
          .ok ("ds: " ++ data_source_title, "Data source **" ++ data_source_title ++ "** was moved to trash")

/-- get_data_source_moved_message (view.py lines 432-444). -/
def get_data_source_moved_message (payload : Json) (notion_token : String) (L : Lookup) :
    Except PyErr (String × String) :=
  match entityId payload with
  | .error e => .error e
  | .ok data_source_id =>
    if data_source_id = "" then .ok ("Notion Data Source", "Data source was moved")
    else
      let data_source_title := get_database_title notion_token data_source_id L
      match get_author_name payload notion_token L with
      | .error e => .error e
      | .ok author =>
        if author ≠ "" then
          .ok ("ds: " ++ data_source_title, "**" ++ author ++ "** moved data source **" ++ data_source_title ++ "**")
        else
          .ok ("ds: " ++ data_source_title, "Data source **" ++ data_source_title ++ "** was moved")

/-- get_data_source_schema_updated_message (view.py lines 447-461). -/
def get_data_source_schema_updated_message (payload : Json) (notion_token : String) (L : Lookup) :
    Except PyErr (String × String) :=
  match entityId payload with
  | .error e => .error e
  | .ok data_source_id =>
    if data_source_id = "" then .ok ("Notion Data Source", "Data source schema was updated")
    else
      let data_source_title := get_database_title notion_token data_source_id L
      match get_author_name payload notion_token L with
      | .error e => .error e
      | .ok author =>
        if author ≠ "" then
          .ok ("ds: " ++ data_source_title, "**" ++ author ++ "** updated data source **" ++ data_source_title ++ "** schema")
        else
          .ok ("ds: " ++ data_source_title, "Data source **" ++ data_source_title ++ "** schema was updated")

/-- get_data_source_undeleted_message (view.py lines 464-476). -/
def get_data_source_undeleted_message (payload : Json) (notion_token : String) (L : Lookup) :
    Except PyErr (String × String) :=
  match entityId payload with
  | .error e => .error e
  | .ok data_source_id =>
    if data_source_id = "" then .ok ("Notion Data Source", "Data source was restored from trash")
    else
      let data_source_title := get_database_title notion_token data_source_id L
      match get_author_name payload notion_token L with
      | .error e => .error e
      | .ok author =>
        if author ≠ "" then
          .ok ("ds: " ++ data_source_title, "**" ++ author ++ "** restored data source **" ++ data_source_title ++ "** from trash")
        else
          .ok ("ds: " ++ data_source_title, "Data source **" ++ data_source_title ++ "** was restored from trash")

/-- get_comment_created_message (view.py lines 479-509): the page id is
read from data.page_id; when truthy, the parent type selects between the
block and page phrasings; otherwise a generic "Notion Update" pair. -/
def get_comment_created_message (payload : Json) (notion_token : String) (L : Lookup) :
    Except PyErr (String × String) :=
  match get_author_name payload notion_token L with
  | .error e => .error e
  | .ok author =>
    match check_none_or_string (wGet (wGet payload "data" (.obj [])) "page_id" .null) with
    | .error e => .error e
    | .ok page_id? =>
      let page_id := page_id?.getD ""
      if page_id ≠ "" then
        let page_title := get_page_title notion_token page_id L
        match check_none_or_string
            (wGet (wGet (wGet payload "data" (.obj [])) "parent" (.obj [])) "type" .null) with
        | .error e => .error e
        | .ok parent_type =>
          if parent_type = some "block" then
            .ok ("page: " ++ page_title,
              if author ≠ "" then "**" ++ author ++ "** added a comment on a block in **" ++ page_title ++ "**"
              else "New comment on a block in **" ++ page_title ++ "**")
          else
            .ok ("page: " ++ page_title,
              if author ≠ "" then "**" ++ author ++ "** added a comment on **" ++ page_title ++ "**"
              else "New comment on **" ++ page_title ++ "**")
      else
        .ok ("Notion Update",
          if author ≠ "" then "**" ++ author ++ "** added a comment" else "New comment was added")

/-- get_comment_deleted_message (view.py lines 512-527). -/
def get_comment_deleted_message (payload : Json) (notion_token : String) (L : Lookup) :
    Except PyErr (String × String) :=
  match get_author_name payload notion_token L with
  | .error e => .error e
  | .ok author =>
    match check_none_or_string (wGet (wGet payload "data" (.obj [])) "page_id" .null) with
    | .error e => .error e
    | .ok page_id? =>
      let page_id := page_id?.getD ""
      if page_id ≠ "" then
        let page_title := get_page_title notion_token page_id L
        .ok ("page: " ++ page_title,
          if author ≠ "" then "**" ++ author ++ "** deleted a comment on **" ++ page_title ++ "**"
          else "Comment deleted on **" ++ page_title ++ "**")
      else
        .ok ("Notion Update",
          if author ≠ "" then "**" ++ author ++ "** deleted a comment" else "Comment was deleted")

/-- get_comment_updated_message (view.py lines 530-545). -/
def get_comment_updated_message (payload : Json) (notion_token : String) (L : Lookup) :
    Except PyErr (String × String) :=
  match get_author_name payload notion_token L with
  | .error e => .error e
  | .ok author =>
    match check_none_or_string (wGet (wGet payload "data" (.obj [])) "page_id" .null) with
    | .error e => .error e
    | .ok page_id? =>
      let page_id := page_id?.getD ""
      if page_id ≠ "" then
        let page_title := get_page_title notion_token page_id L
        .ok ("page: " ++ page_title,
          if author ≠ "" then "**" ++ author ++ "** updated a comment on **" ++ page_title ++ "**"
          else "Comment updated on **" ++ page_title ++ "**")
      else
        .ok ("Notion Update",
          if author ≠ "" then "**" ++ author ++ "** updated a comment" else "Comment was updated")

/-- The type of the event formatters. -/
def Formatter : Type :=
  Json → String → Lookup → Except PyErr (String × String)

/-- EVENT_TO_FUNCTION_MAPPER (view.py lines 548-576), in source order. -/
def EVENT_TO_FUNCTION_MAPPER : List (String × Formatter) :=
  [("page.content_updated", get_page_content_updated_message),
   ("page.created", get_page_created_message),
   ("page.deleted", get_page_deleted_message),
   ("page.locked", get_page_locked_message),
   ("page.moved", get_page_moved_message),
   ("page.properties_updated", get_page_properties_updated_message),
   ("page.undeleted", get_page_undeleted_message),
   ("page.unlocked", get_page_unlocked_message),
   ("database.content_updated", get_database_content_updated_message),
   ("database.created", get_database_created_message),
   ("database.deleted", get_database_deleted_message),
   ("database.moved", get_database_moved_message),
   ("database.schema_updated", get_database_schema_updated_message),
   ("database.undeleted", get_database_undeleted_message),
   ("data_source.content_updated", get_data_source_content_updated_message),
   ("data_source.created", get_data_source_created_message),
   ("data_source.deleted", get_data_source_deleted_message),
   ("data_source.moved", get_data_source_moved_message),
   ("data_source.schema_updated", get_data_source_schema_updated_message),
   ("data_source.undeleted", get_data_source_undeleted_message),
   ("comment.created", get_comment_created_message),
   ("comment.deleted", get_comment_deleted_message),
   ("comment.updated", get_comment_updated_message)]

/-- Dictionary lookup in the mapper (keys are distinct, so first match
equals dict access). -/
def lookupMapper (event_type : String) : Option Formatter :=
  (EVENT_TO_FUNCTION_MAPPER.find? fun kv => kv.1 == event_type).map fun kv => kv.2

/-- NOTION_VERIFICATION_TOKEN_MESSAGE (view.py lines 17-23) after .strip()
and .format(token=...): the fixed template with the token substituted. -/
def NOTION_VERIFICATION_TOKEN_MESSAGE (token : String) : String :=
  "This is a webhook configuration test message from Notion.\n\nYour verification token is: `"
    ++ token
    ++ "`\n\nPlease copy this token and paste it into your Notion webhook configuration to complete the setup."

/-- handle_verification_request (view.py lines 581-589): tame the token as
a string and deliver the fixed message to the fixed topic "Notion".  The
delivered (topic, body) pair models check_send_webhook_message. -/
def handle_verification_request (payload : Json) : Except PyErr (String × String) :=
  match check_string (wGet payload "verification_token" .null) with
  | .error e => .error e
  | .ok verification_token =>
    .ok ("Notion", NOTION_VERIFICATION_TOKEN_MESSAGE verification_token)

/-- is_verification (view.py lines 592-594): true when taming the
verification_token as none-or-string yields a non-None value, that is,
exactly when the field is present with a string value (possibly empty). -/
def is_verification (payload : Json) : Except PyErr Bool :=
  match check_none_or_string (wGet payload "verification_token" .null) with
  | .error e => .error e
  | .ok o => .ok o.isSome

/-- api_notion_webhook (view.py lines 597-627).  The result is the
(topic, body) pair handed to check_send_webhook_message, or the raised
error (in which case no delivery occurs).  user_specified_topic is the
optional override (None or a string); map_pages_to_topics the routing
flag. -/
def api_notion_webhook (payload : Json) (notion_token : String)
    (user_specified_topic : Option String) (map_pages_to_topics : Bool) (L : Lookup) :
    Except PyErr (String × String) :=
  match is_verification payload with
  | .error e => .error e
  | .ok true => handle_verification_request payload
  | .ok false =>
    match check_string (wGet payload "type" .null) with
    | .error e => .error e
    | .ok event_type =>
      match lookupMapper event_type with
      | none => .error (.unsupportedEventType event_type)
      | some handler_function =>
        match handler_function payload notion_token L with
        | .error e => .error e
        | .ok (topic_name, body) =>
          let final_topic :=
            if user_specified_topic.getD "" ≠ "" then user_specified_topic.getD ""
            else if map_pages_to_topics = false then "Notion"
            else topic_name
          .ok (final_topic, body)

/-! Specification-side definitions.  These follow the wording of the
specification (and of the claims), to be compared with the definitions
above, which follow the source. -/

/-- The common property names searched first by the page title
extraction, in the order stated by the specification. -/
def commonTitleNames : List String := ["title", "Title", "Name", "name"]

/-- Title text of one property, per the specification wording: a
property whose declared type is "title" contributes the plain text of its
first rich-text span when that text is non-empty. -/
def specTitleText (prop_value : Json) : Option Json :=
  match prop_value with
  | .obj pv =>
    if isStrEq ((plookup pv "type").getD .null) "title" then
      match (plookup pv "title").getD (.arr []) with
      | .arr (s :: _) =>
        match s with
        | .obj sp =>
          let pt := (plookup sp "plain_text").getD .null
          if pyTruthy pt then some pt else none
        | _ => none
      | _ => none
    else none
  | _ => none

/-- The page title search as the specification words it: first the common
names in order, each contributing only when its property yields title
text; then a scan over all properties in order; the caller substitutes
"Untitled Page" when nothing is found. -/
def specPageTitleSearch (props : List (String × Json)) : Option Json :=
  match commonTitleNames.findSome? (fun n => (plookup props n).bind specTitleText) with
  | some t => some t
  | none => (props.map Prod.snd).findSome? specTitleText

/-- Well-formedness of one property for the title search: whenever the
property is typed "title" with a non-empty span list, the first span is a
dict (so the source code does not raise AttributeError on it). -/
def spanOk (v : Json) : Bool :=
  match v with
  | .obj pv =>
    if isStrEq ((plookup pv "type").getD .null) "title" then
      match (plookup pv "title").getD (.arr []) with
      | .arr (s :: _) =>
        match s with
        | .obj _ => true
        | _ => false
      | _ => true
    else true
  | _ => true

/-- The author string that get_author_name actually produces from a tamed
authors list: empty for an empty list or an empty first id, otherwise the
resolved first author plus the co-author count annotation. -/
def authorDisplay (notion_token : String) (L : Lookup) : List (String × String) → String
  | [] => ""
  | first :: rest =>
    if first.1 = "" then ""
    else if rest.length ≥ 1 then
      get_user_name notion_token first.1 L ++ " (+" ++ toString rest.length ++ " other"
        ++ (if rest.length > 1 then "s" else "") ++ ")"
    else get_user_name notion_token first.1 L

/-- The generic fallback pair each entity formatter returns when the
entity id is the empty string (source literals, view.py lines 178, 193,
208, 223, 238, 253, 268, 283, 298, 313, 328, 343, 358, 373, 390, 405,
420, 435, 452, 467). -/
def ENTITY_EVENT_FALLBACKS : List (String × (String × String)) :=
  [("page.content_updated", ("Notion Page", "Page content was updated")),
   ("page.created", ("Notion Page", "New page was created")),
   ("page.deleted", ("Notion Page", "Page was moved to trash")),
   ("page.locked", ("Notion Page", "Page was locked")),
   ("page.moved", ("Notion Page", "Page was moved")),
   ("page.properties_updated", ("Notion Page", "Page properties were updated")),
   ("page.undeleted", ("Notion Page", "Page was restored from trash")),
   ("page.unlocked", ("Notion Page", "Page was unlocked")),
   ("database.content_updated", ("Notion Database", "Database content was updated")),
   ("database.created", ("Notion Database", "New database was created")),
   ("database.deleted", ("Notion Database", "Database was moved to trash")),
   ("database.moved", ("Notion Database", "Database was moved")),
   ("database.schema_updated", ("Notion Database", "Database schema was updated")),
   ("database.undeleted", ("Notion Database", "Database was restored from trash")),
   ("data_source.content_updated", ("Notion Data Source", "Data source content was updated")),
   ("data_source.created", ("Notion Data Source", "New data source was created")),
   ("data_source.deleted", ("Notion Data Source", "Data source was moved to trash")),
   ("data_source.moved", ("Notion Data Source", "Data source was moved")),
   ("data_source.schema_updated", ("Notion Data Source", "Data source schema was updated")),
   ("data_source.undeleted", ("Notion Data Source", "Data source was restored from trash"))]

/-! Proof infrastructure. -/

/-- Whether an Except result is a success. -/
def exceptOk {α : Type} : Except PyErr α → Bool
  | .ok _ => true
  | .error _ => false

/-- The common control-flow skeleton shared by the twenty entity
formatters, made explicit for the proofs: fallback pair on an empty id,
then title resolution, author resolution, and an active or passive body.
Each entity formatter above is definitionally equal to an instance. -/
def entityFormatterShape (fb : String × String) (topicPre : String)
    (titleOf : String → String → Lookup → String)
    (act : String → String → String) (pas : String → String)
    (payload : Json) (notion_token : String) (L : Lookup) : Except PyErr (String × String) :=
  match entityId payload with
  | .error e => .error e
  | .ok eid =>
    if eid = "" then .ok fb
    else
      let t := titleOf notion_token eid L
      match get_author_name payload notion_token L with
      | .error e => .error e
      | .ok author =>
        if author ≠ "" then .ok (topicPre ++ t, act author t)
        else .ok (topicPre ++ t, pas t)

theorem append_ne_empty_left (s t : String) (h : s ≠ "") : s ++ t ≠ "" := by
  intro he
  apply h
  apply String.ext
  have hd : (s ++ t).data = ("" : String).data := congrArg String.data he
  rw [String.data_append] at hd
  have : s.data = [] := (List.append_eq_nil.mp hd).1
  simpa using this

theorem get_author_name_error_iff (p : Json) (tok : String) (L : Lookup) (e : PyErr) :
    get_author_name p tok L = .error e ↔
      (pyTruthy (wGet p "authors" .null) = true
        ∧ tameAuthors (wGet p "authors" .null) = .error e) := by
  unfold get_author_name
  cases hpt : pyTruthy (wGet p "authors" .null)
  · simp [hpt]
  · cases hta : tameAuthors (wGet p "authors" .null) with
    | error e' => simp [hpt, hta]
    | ok l =>
      cases l with
      | nil => simp [hpt, hta]
      | cons a rest =>
        simp only [hpt, hta, if_true, true_and]
        split <;> simp
        split <;> simp

theorem author_ok_indep (p : Json) (tok : String) (L L' : Lookup) :
    exceptOk (get_author_name p tok L) = exceptOk (get_author_name p tok L') := by
  cases ha : get_author_name p tok L with
  | error e =>
    have h2 : get_author_name p tok L' = .error e := by
      rw [get_author_name_error_iff] at ha ⊢
      exact ha
    rw [h2]
  | ok s =>
    cases ha' : get_author_name p tok L' with
    | error e =>
      rw [get_author_name_error_iff] at ha'
      have : get_author_name p tok L = .error e := by
        rw [get_author_name_error_iff]
        exact ha'
      rw [this] at ha
      exact absurd ha (by simp)
    | ok s' => rfl

theorem shape_ok_nonempty (fb : String × String) (topicPre : String)
    (titleOf : String → String → Lookup → String)
    (act : String → String → String) (pas : String → String)
    (h1 : fb.1 ≠ "") (h2 : fb.2 ≠ "") (h3 : topicPre ≠ "")
    (h4 : ∀ a t, act a t ≠ "") (h5 : ∀ t, pas t ≠ "")
    (p : Json) (tok : String) (L : Lookup) (t b : String)
    (h : entityFormatterShape fb topicPre titleOf act pas p tok L = .ok (t, b)) :
    t ≠ "" ∧ b ≠ "" := by
  unfold entityFormatterShape at h
  split at h
  · exact absurd h (by simp)
  · split at h
    · injection h with h'
      subst h'
      exact ⟨h1, h2⟩
    · split at h
      · exact absurd h (by simp)
      · split at h <;>
          · injection h with h'
            rw [Prod.mk.injEq] at h'
            obtain ⟨ht, hb⟩ := h'
            subst ht
            subst hb
            refine ⟨append_ne_empty_left _ _ h3, ?_⟩
            first
              | exact h4 _ _
              | exact h5 _

theorem shape_ok_indep (fb : String × String) (topicPre : String)
    (titleOf : String → String → Lookup → String)
    (act : String → String → String) (pas : String → String)
    (p : Json) (tok : String) (L L' : Lookup) :
    exceptOk (entityFormatterShape fb topicPre titleOf act pas p tok L)
      = exceptOk (entityFormatterShape fb topicPre titleOf act pas p tok L') := by
  unfold entityFormatterShape
  cases he : entityId p with
  | error e => rfl
  | ok eid =>
    by_cases hid : eid = ""
    · simp [hid]
    · simp only [if_neg hid]
      have hind := author_ok_indep p tok L L'
      cases ha : get_author_name p tok L with
      | error e =>
        cases ha' : get_author_name p tok L' with
        | error e' => rfl
        | ok s => rw [ha, ha'] at hind; exact absurd hind (by simp [exceptOk])
      | ok s =>
        cases ha' : get_author_name p tok L' with
        | error e' => rw [ha, ha'] at hind; exact absurd hind (by simp [exceptOk])
        | ok s' =>
          by_cases hau : s ≠ "" <;> by_cases hau' : s' ≠ "" <;>
            simp [hau, hau', exceptOk]

theorem chain2 (s t u : String) (h : s ≠ "") : s ++ t ++ u ≠ "" :=
  append_ne_empty_left _ _ (append_ne_empty_left _ _ h)

theorem chain4 (s t u v w : String) (h : s ≠ "") : s ++ t ++ u ++ v ++ w ≠ "" :=
  append_ne_empty_left _ _ (append_ne_empty_left _ _ (append_ne_empty_left _ _ (append_ne_empty_left _ _ h)))

/-- The two properties needed of every entity formatter (non-empty ok
results; success independent of the lookup oracle), derived once from the
shared shape. -/
theorem entity_formatter_props (F : Formatter) (fb : String × String) (topicPre : String)
    (titleOf : String → String → Lookup → String)
    (act : String → String → String) (pas : String → String)
    (hF : F = entityFormatterShape fb topicPre titleOf act pas)
    (h1 : fb.1 ≠ "") (h2 : fb.2 ≠ "") (h3 : topicPre ≠ "")
    (h4 : ∀ a t, act a t ≠ "") (h5 : ∀ t, pas t ≠ "") :
    (∀ p tok L t b, F p tok L = .ok (t, b) → t ≠ "" ∧ b ≠ "")
      ∧ (∀ p tok L L', exceptOk (F p tok L) = exceptOk (F p tok L'))
      ∧ (∀ p tok L, entityId p = .ok "" → F p tok L = .ok fb)
      ∧ (∀ p tok L e, entityId p = .error e → F p tok L = .error e) := by
  subst hF
  refine ⟨fun p tok L t b h => shape_ok_nonempty _ _ _ _ _ h1 h2 h3 h4 h5 p tok L t b h,
          fun p tok L L' => shape_ok_indep _ _ _ _ _ p tok L L', ?_, ?_⟩
  · intro p tok L h
    unfold entityFormatterShape
    rw [h]
    rfl
  · intro p tok L e h
    unfold entityFormatterShape
    rw [h]

theorem props_page_content_updated :
    (∀ p tok L t b, get_page_content_updated_message p tok L = .ok (t, b) → t ≠ "" ∧ b ≠ "")
      ∧ (∀ p tok L L', exceptOk (get_page_content_updated_message p tok L)
          = exceptOk (get_page_content_updated_message p tok L'))
      ∧ (∀ p tok L, entityId p = .ok "" → get_page_content_updated_message p tok L = .ok ("Notion Page", "Page content was updated"))
      ∧ (∀ p tok L e, entityId p = .error e → get_page_content_updated_message p tok L = .error e) :=
  entity_formatter_props get_page_content_updated_message
    ("Notion Page", "Page content was updated") "page: " get_page_title
    (fun a t => "**" ++ a ++ "** updated page **" ++ t ++ "** content")
    (fun t => "Page **" ++ t ++ "** content was updated")
    rfl (by decide) (by decide) (by decide)
    (fun a t => chain4 _ _ _ _ _ (by decide)) (fun t => chain2 _ _ _ (by decide))

theorem props_page_created :
    (∀ p tok L t b, get_page_created_message p tok L = .ok (t, b) → t ≠ "" ∧ b ≠ "")
      ∧ (∀ p tok L L', exceptOk (get_page_created_message p tok L)
          = exceptOk (get_page_created_message p tok L'))
      ∧ (∀ p tok L, entityId p = .ok "" → get_page_created_message p tok L = .ok ("Notion Page", "New page was created"))
      ∧ (∀ p tok L e, entityId p = .error e → get_page_created_message p tok L = .error e) :=
  entity_formatter_props get_page_created_message
    ("Notion Page", "New page was created") "page: " get_page_title
    (fun a t => "**" ++ a ++ "** created page **" ++ t ++ "**")
    (fun t => "New page **" ++ t ++ "** was created")
    rfl (by decide) (by decide) (by decide)
    (fun a t => chain4 _ _ _ _ _ (by decide)) (fun t => chain2 _ _ _ (by decide))

theorem props_page_deleted :
    (∀ p tok L t b, get_page_deleted_message p tok L = .ok (t, b) → t ≠ "" ∧ b ≠ "")
      ∧ (∀ p tok L L', exceptOk (get_page_deleted_message p tok L)
          = exceptOk (get_page_deleted_message p tok L'))
      ∧ (∀ p tok L, entityId p = .ok "" → get_page_deleted_message p tok L = .ok ("Notion Page", "Page was moved to trash"))
      ∧ (∀ p tok L e, entityId p = .error e → get_page_deleted_message p tok L = .error e) :=
  entity_formatter_props get_page_deleted_message
    ("Notion Page", "Page was moved to trash") "page: " get_page_title
    (fun a t => "**" ++ a ++ "** moved page **" ++ t ++ "** to trash")
    (fun t => "Page **" ++ t ++ "** was moved to trash")
    rfl (by decide) (by decide) (by decide)
    (fun a t => chain4 _ _ _ _ _ (by decide)) (fun t => chain2 _ _ _ (by decide))

theorem props_page_locked :
    (∀ p tok L t b, get_page_locked_message p tok L = .ok (t, b) → t ≠ "" ∧ b ≠ "")
      ∧ (∀ p tok L L', exceptOk (get_page_locked_message p tok L)
          = exceptOk (get_page_locked_message p tok L'))
      ∧ (∀ p tok L, entityId p = .ok "" → get_page_locked_message p tok L = .ok ("Notion Page", "Page was locked"))
      ∧ (∀ p tok L e, entityId p = .error e → get_page_locked_message p tok L = .error e) :=
  entity_formatter_props get_page_locked_message
    ("Notion Page", "Page was locked") "page: " get_page_title
    (fun a t => "**" ++ a ++ "** locked page **" ++ t ++ "**")
    (fun t => "Page **" ++ t ++ "** was locked")
    rfl (by decide) (by decide) (by decide)
    (fun a t => chain4 _ _ _ _ _ (by decide)) (fun t => chain2 _ _ _ (by decide))

theorem props_page_moved :
    (∀ p tok L t b, get_page_moved_message p tok L = .ok (t, b) → t ≠ "" ∧ b ≠ "")
      ∧ (∀ p tok L L', exceptOk (get_page_moved_message p tok L)
          = exceptOk (get_page_moved_message p tok L'))
      ∧ (∀ p tok L, entityId p = .ok "" → get_page_moved_message p tok L = .ok ("Notion Page", "Page was moved"))
      ∧ (∀ p tok L e, entityId p = .error e → get_page_moved_message p tok L = .error e) :=
  entity_formatter_props get_page_moved_message
    ("Notion Page", "Page was moved") "page: " get_page_title
    (fun a t => "**" ++ a ++ "** moved page **" ++ t ++ "**")
    (fun t => "Page **" ++ t ++ "** was moved")
    rfl (by decide) (by decide) (by decide)
    (fun a t => chain4 _ _ _ _ _ (by decide)) (fun t => chain2 _ _ _ (by decide))

theorem props_page_properties_updated :
    (∀ p tok L t b, get_page_properties_updated_message p tok L = .ok (t, b) → t ≠ "" ∧ b ≠ "")
      ∧ (∀ p tok L L', exceptOk (get_page_properties_updated_message p tok L)
          = exceptOk (get_page_properties_updated_message p tok L'))
      ∧ (∀ p tok L, entityId p = .ok "" → get_page_properties_updated_message p tok L = .ok ("Notion Page", "Page properties were updated"))
      ∧ (∀ p tok L e, entityId p = .error e → get_page_properties_updated_message p tok L = .error e) :=
  entity_formatter_props get_page_properties_updated_message
    ("Notion Page", "Page properties were updated") "page: " get_page_title
    (fun a t => "**" ++ a ++ "** updated page **" ++ t ++ "** properties")
    (fun t => "Page **" ++ t ++ "** properties were updated")
    rfl (by decide) (by decide) (by decide)
    (fun a t => chain4 _ _ _ _ _ (by decide)) (fun t => chain2 _ _ _ (by decide))

theorem props_page_undeleted :
    (∀ p tok L t b, get_page_undeleted_message p tok L = .ok (t, b) → t ≠ "" ∧ b ≠ "")
      ∧ (∀ p tok L L', exceptOk (get_page_undeleted_message p tok L)
          = exceptOk (get_page_undeleted_message p tok L'))
      ∧ (∀ p tok L, entityId p = .ok "" → get_page_undeleted_message p tok L = .ok ("Notion Page", "Page was restored from trash"))
      ∧ (∀ p tok L e, entityId p = .error e → get_page_undeleted_message p tok L = .error e) :=
  entity_formatter_props get_page_undeleted_message
    ("Notion Page", "Page was restored from trash") "page: " get_page_title
    (fun a t => "**" ++ a ++ "** restored page **" ++ t ++ "** from trash")
    (fun t => "Page **" ++ t ++ "** was restored from trash")
    rfl (by decide) (by decide) (by decide)
    (fun a t => chain4 _ _ _ _ _ (by decide)) (fun t => chain2 _ _ _ (by decide))

theorem props_page_unlocked :
    (∀ p tok L t b, get_page_unlocked_message p tok L = .ok (t, b) → t ≠ "" ∧ b ≠ "")
      ∧ (∀ p tok L L', exceptOk (get_page_unlocked_message p tok L)
          = exceptOk (get_page_unlocked_message p tok L'))
      ∧ (∀ p tok L, entityId p = .ok "" → get_page_unlocked_message p tok L = .ok ("Notion Page", "Page was unlocked"))
      ∧ (∀ p tok L e, entityId p = .error e → get_page_unlocked_message p tok L = .error e) :=
  entity_formatter_props get_page_unlocked_message
    ("Notion Page", "Page was unlocked") "page: " get_page_title
    (fun a t => "**" ++ a ++ "** unlocked page **" ++ t ++ "**")
    (fun t => "Page **" ++ t ++ "** was unlocked")
    rfl (by decide) (by decide) (by decide)
    (fun a t => chain4 _ _ _ _ _ (by decide)) (fun t => chain2 _ _ _ (by decide))

theorem props_database_content_updated :
    (∀ p tok L t b, get_database_content_updated_message p tok L = .ok (t, b) → t ≠ "" ∧ b ≠ "")
      ∧ (∀ p tok L L', exceptOk (get_database_content_updated_message p tok L)
          = exceptOk (get_database_content_updated_message p tok L'))
      ∧ (∀ p tok L, entityId p = .ok "" → get_database_content_updated_message p tok L = .ok ("Notion Database", "Database content was updated"))
      ∧ (∀ p tok L e, entityId p = .error e → get_database_content_updated_message p tok L = .error e) :=
  entity_formatter_props get_database_content_updated_message
    ("Notion Database", "Database content was updated") "db: " get_database_title
    (fun a t => "**" ++ a ++ "** updated database **" ++ t ++ "** content")
    (fun t => "Database **" ++ t ++ "** content was updated")
    rfl (by decide) (by decide) (by decide)
    (fun a t => chain4 _ _ _ _ _ (by decide)) (fun t => chain2 _ _ _ (by decide))

theorem props_database_created :
    (∀ p tok L t b, get_database_created_message p tok L = .ok (t, b) → t ≠ "" ∧ b ≠ "")
      ∧ (∀ p tok L L', exceptOk (get_database_created_message p tok L)
          = exceptOk (get_database_created_message p tok L'))
      ∧ (∀ p tok L, entityId p = .ok "" → get_database_created_message p tok L = .ok ("Notion Database", "New database was created"))
      ∧ (∀ p tok L e, entityId p = .error e → get_database_created_message p tok L = .error e) :=
  entity_formatter_props get_database_created_message
    ("Notion Database", "New database was created") "db: " get_database_title
    (fun a t => "**" ++ a ++ "** created database **" ++ t ++ "**")
    (fun t => "New database **" ++ t ++ "** was created")
    rfl (by decide) (by decide) (by decide)
    (fun a t => chain4 _ _ _ _ _ (by decide)) (fun t => chain2 _ _ _ (by decide))

theorem props_database_deleted :
    (∀ p tok L t b, get_database_deleted_message p tok L = .ok (t, b) → t ≠ "" ∧ b ≠ "")
      ∧ (∀ p tok L L', exceptOk (get_database_deleted_message p tok L)
          = exceptOk (get_database_deleted_message p tok L'))
      ∧ (∀ p tok L, entityId p = .ok "" → get_database_deleted_message p tok L = .ok ("Notion Database", "Database was moved to trash"))
      ∧ (∀ p tok L e, entityId p = .error e → get_database_deleted_message p tok L = .error e) :=
  entity_formatter_props get_database_deleted_message
    ("Notion Database", "Database was moved to trash") "db: " get_database_title
    (fun a t => "**" ++ a ++ "** moved database **" ++ t ++ "** to trash")
    (fun t => "Database **" ++ t ++ "** was moved to trash")
    rfl (by decide) (by decide) (by decide)
    (fun a t => chain4 _ _ _ _ _ (by decide)) (fun t => chain2 _ _ _ (by decide))

theorem props_database_moved :
    (∀ p tok L t b, get_database_moved_message p tok L = .ok (t, b) → t ≠ "" ∧ b ≠ "")
      ∧ (∀ p tok L L', exceptOk (get_database_moved_message p tok L)
          = exceptOk (get_database_moved_message p tok L'))
      ∧ (∀ p tok L, entityId p = .ok "" → get_database_moved_message p tok L = .ok ("Notion Database", "Database was moved"))
      ∧ (∀ p tok L e, entityId p = .error e → get_database_moved_message p tok L = .error e) :=
  entity_formatter_props get_database_moved_message
    ("Notion Database", "Database was moved") "db: " get_database_title
    (fun a t => "**" ++ a ++ "** moved database **" ++ t ++ "**")
    (fun t => "Database **" ++ t ++ "** was moved")
    rfl (by decide) (by decide) (by decide)
    (fun a t => chain4 _ _ _ _ _ (by decide)) (fun t => chain2 _ _ _ (by decide))

theorem props_database_schema_updated :
    (∀ p tok L t b, get_database_schema_updated_message p tok L = .ok (t, b) → t ≠ "" ∧ b ≠ "")
      ∧ (∀ p tok L L', exceptOk (get_database_schema_updated_message p tok L)
          = exceptOk (get_database_schema_updated_message p tok L'))
      ∧ (∀ p tok L, entityId p = .ok "" → get_database_schema_updated_message p tok L = .ok ("Notion Database", "Database schema was updated"))
      ∧ (∀ p tok L e, entityId p = .error e → get_database_schema_updated_message p tok L = .error e) :=
  entity_formatter_props get_database_schema_updated_message
    ("Notion Database", "Database schema was updated") "db: " get_database_title
    (fun a t => "**" ++ a ++ "** updated database **" ++ t ++ "** schema")
    (fun t => "Database **" ++ t ++ "** schema was updated")
    rfl (by decide) (by decide) (by decide)
    (fun a t => chain4 _ _ _ _ _ (by decide)) (fun t => chain2 _ _ _ (by decide))

theorem props_database_undeleted :
    (∀ p tok L t b, get_database_undeleted_message p tok L = .ok (t, b) → t ≠ "" ∧ b ≠ "")
      ∧ (∀ p tok L L', exceptOk (get_database_undeleted_message p tok L)
          = exceptOk (get_database_undeleted_message p tok L'))
      ∧ (∀ p tok L, entityId p = .ok "" → get_database_undeleted_message p tok L = .ok ("Notion Database", "Database was restored from trash"))
      ∧ (∀ p tok L e, entityId p = .error e → get_database_undeleted_message p tok L = .error e) :=
  entity_formatter_props get_database_undeleted_message
    ("Notion Database", "Database was restored from trash") "db: " get_database_title
    (fun a t => "**" ++ a ++ "** restored database **" ++ t ++ "** from trash")
    (fun t => "Database **" ++ t ++ "** was restored from trash")
    rfl (by decide) (by decide) (by decide)
    (fun a t => chain4 _ _ _ _ _ (by decide)) (fun t => chain2 _ _ _ (by decide))

theorem props_data_source_content_updated :
    (∀ p tok L t b, get_data_source_content_updated_message p tok L = .ok (t, b) → t ≠ "" ∧ b ≠ "")
      ∧ (∀ p tok L L', exceptOk (get_data_source_content_updated_message p tok L)
          = exceptOk (get_data_source_content_updated_message p tok L'))
      ∧ (∀ p tok L, entityId p = .ok "" → get_data_source_content_updated_message p tok L = .ok ("Notion Data Source", "Data source content was updated"))
      ∧ (∀ p tok L e, entityId p = .error e → get_data_source_content_updated_message p tok L = .error e) :=
  entity_formatter_props get_data_source_content_updated_message
    ("Notion Data Source", "Data source content was updated") "ds: " get_database_title
    (fun a t => "**" ++ a ++ "** updated data source **" ++ t ++ "** content")
    (fun t => "Data source **" ++ t ++ "** content was updated")
    rfl (by decide) (by decide) (by decide)
    (fun a t => chain4 _ _ _ _ _ (by decide)) (fun t => chain2 _ _ _ (by decide))

theorem props_data_source_created :
    (∀ p tok L t b, get_data_source_created_message p tok L = .ok (t, b) → t ≠ "" ∧ b ≠ "")
      ∧ (∀ p tok L L', exceptOk (get_data_source_created_message p tok L)
          = exceptOk (get_data_source_created_message p tok L'))
      ∧ (∀ p tok L, entityId p = .ok "" → get_data_source_created_message p tok L = .ok ("Notion Data Source", "New data source was created"))
      ∧ (∀ p tok L e, entityId p = .error e → get_data_source_created_message p tok L = .error e) :=
  entity_formatter_props get_data_source_created_message
    ("Notion Data Source", "New data source was created") "ds: " get_database_title
    (fun a t => "**" ++ a ++ "** created data source **" ++ t ++ "**")
    (fun t => "New data source **" ++ t ++ "** was created")
    rfl (by decide) (by decide) (by decide)
    (fun a t => chain4 _ _ _ _ _ (by decide)) (fun t => chain2 _ _ _ (by decide))

theorem props_data_source_deleted :
    (∀ p tok L t b, get_data_source_deleted_message p tok L = .ok (t, b) → t ≠ "" ∧ b ≠ "")
      ∧ (∀ p tok L L', exceptOk (get_data_source_deleted_message p tok L)
          = exceptOk (get_data_source_deleted_message p tok L'))
      ∧ (∀ p tok L, entityId p = .ok "" → get_data_source_deleted_message p tok L = .ok ("Notion Data Source", "Data source was moved to trash"))
      ∧ (∀ p tok L e, entityId p = .error e → get_data_source_deleted_message p tok L = .error e) :=
  entity_formatter_props get_data_source_deleted_message
    ("Notion Data Source", "Data source was moved to trash") "ds: " get_database_title
    (fun a t => "**" ++ a ++ "** moved data source **" ++ t ++ "** to trash")
    (fun t => "Data source **" ++ t ++ "** was moved to trash")
    rfl (by decide) (by decide) (by decide)
    (fun a t => chain4 _ _ _ _ _ (by decide)) (fun t => chain2 _ _ _ (by decide))

theorem props_data_source_moved :
    (∀ p tok L t b, get_data_source_moved_message p tok L = .ok (t, b) → t ≠ "" ∧ b ≠ "")
      ∧ (∀ p tok L L', exceptOk (get_data_source_moved_message p tok L)
          = exceptOk (get_data_source_moved_message p tok L'))
      ∧ (∀ p tok L, entityId p = .ok "" → get_data_source_moved_message p tok L = .ok ("Notion Data Source", "Data source was moved"))
      ∧ (∀ p tok L e, entityId p = .error e → get_data_source_moved_message p tok L = .error e) :=
  entity_formatter_props get_data_source_moved_message
    ("Notion Data Source", "Data source was moved") "ds: " get_database_title
    (fun a t => "**" ++ a ++ "** moved data source **" ++ t ++ "**")
    (fun t => "Data source **" ++ t ++ "** was moved")
    rfl (by decide) (by decide) (by decide)
    (fun a t => chain4 _ _ _ _ _ (by decide)) (fun t => chain2 _ _ _ (by decide))

theorem props_data_source_schema_updated :
    (∀ p tok L t b, get_data_source_schema_updated_message p tok L = .ok (t, b) → t ≠ "" ∧ b ≠ "")
      ∧ (∀ p tok L L', exceptOk (get_data_source_schema_updated_message p tok L)
          = exceptOk (get_data_source_schema_updated_message p tok L'))
      ∧ (∀ p tok L, entityId p = .ok "" → get_data_source_schema_updated_message p tok L = .ok ("Notion Data Source", "Data source schema was updated"))
      ∧ (∀ p tok L e, entityId p = .error e → get_data_source_schema_updated_message p tok L = .error e) :=
  entity_formatter_props get_data_source_schema_updated_message
    ("Notion Data Source", "Data source schema was updated") "ds: " get_database_title
    (fun a t => "**" ++ a ++ "** updated data source **" ++ t ++ "** schema")
    (fun t => "Data source **" ++ t ++ "** schema was updated")
    rfl (by decide) (by decide) (by decide)
    (fun a t => chain4 _ _ _ _ _ (by decide)) (fun t => chain2 _ _ _ (by decide))

theorem props_data_source_undeleted :
    (∀ p tok L t b, get_data_source_undeleted_message p tok L = .ok (t, b) → t ≠ "" ∧ b ≠ "")
      ∧ (∀ p tok L L', exceptOk (get_data_source_undeleted_message p tok L)
          = exceptOk (get_data_source_undeleted_message p tok L'))
      ∧ (∀ p tok L, entityId p = .ok "" → get_data_source_undeleted_message p tok L = .ok ("Notion Data Source", "Data source was restored from trash"))
      ∧ (∀ p tok L e, entityId p = .error e → get_data_source_undeleted_message p tok L = .error e) :=
  entity_formatter_props get_data_source_undeleted_message
    ("Notion Data Source", "Data source was restored from trash") "ds: " get_database_title
    (fun a t => "**" ++ a ++ "** restored data source **" ++ t ++ "** from trash")
    (fun t => "Data source **" ++ t ++ "** was restored from trash")
    rfl (by decide) (by decide) (by decide)
    (fun a t => chain4 _ _ _ _ _ (by decide)) (fun t => chain2 _ _ _ (by decide))

theorem props_comment_created :
    (∀ p tok L t b, get_comment_created_message p tok L = .ok (t, b) → t ≠ "" ∧ b ≠ "")
      ∧ (∀ p tok L L', exceptOk (get_comment_created_message p tok L)
          = exceptOk (get_comment_created_message p tok L')) := by
  constructor
  · intro p tok L t b h
    unfold get_comment_created_message at h
    split at h
    · exact absurd h (by simp)
    · split at h
      · exact absurd h (by simp)
      · dsimp only at h
        split at h
        · split at h
          · exact absurd h (by simp)
          · split at h <;>
              (injection h with h'
               rw [Prod.mk.injEq] at h'
               obtain ⟨ht, hb⟩ := h'
               subst ht
               subst hb
               refine ⟨append_ne_empty_left _ _ (by decide), ?_⟩
               split
               · exact chain4 _ _ _ _ _ (by decide)
               · exact chain2 _ _ _ (by decide))
        · injection h with h'
          rw [Prod.mk.injEq] at h'
          obtain ⟨ht, hb⟩ := h'
          subst ht
          subst hb
          refine ⟨by decide, ?_⟩
          split
          · exact chain2 _ _ _ (by decide)
          · decide
  · intro p tok L L'
    have hind := author_ok_indep p tok L L'
    unfold get_comment_created_message
    cases ha : get_author_name p tok L with
    | error e =>
      cases ha' : get_author_name p tok L' with
      | error e' => rfl
      | ok s => rw [ha, ha'] at hind; exact absurd hind (by simp [exceptOk])
    | ok s =>
      cases ha' : get_author_name p tok L' with
      | error e' => rw [ha, ha'] at hind; exact absurd hind (by simp [exceptOk])
      | ok s' =>
        dsimp only
        cases hpid : check_none_or_string (wGet (wGet p "data" (.obj [])) "page_id" .null) with
        | error e => rfl
        | ok pid? =>
          dsimp only
          by_cases hp : pid?.getD "" ≠ ""
          · simp only [if_pos hp]
            cases hpar : check_none_or_string
                (wGet (wGet (wGet p "data" (.obj [])) "parent" (.obj [])) "type" .null) with
            | error e => rfl
            | ok parent_type => dsimp only; split <;> rfl
          · simp only [if_neg hp]
            rfl

theorem props_comment_deleted :
    (∀ p tok L t b, get_comment_deleted_message p tok L = .ok (t, b) → t ≠ "" ∧ b ≠ "")
      ∧ (∀ p tok L L', exceptOk (get_comment_deleted_message p tok L)
          = exceptOk (get_comment_deleted_message p tok L')) := by
  constructor
  · intro p tok L t b h
    unfold get_comment_deleted_message at h
    split at h
    · exact absurd h (by simp)
    · split at h
      · exact absurd h (by simp)
      · split at h <;>
          (dsimp only at h
           split at h <;>
             (injection h with h'
              rw [Prod.mk.injEq] at h'
              obtain ⟨ht, hb⟩ := h'
              subst ht
              subst hb
              constructor
              · first
                  | exact append_ne_empty_left _ _ (by decide)
                  | decide
              · first
                  | exact chain4 _ _ _ _ _ (by decide)
                  | exact chain2 _ _ _ (by decide)
                  | decide))
  · intro p tok L L'
    have hind := author_ok_indep p tok L L'
    unfold get_comment_deleted_message
    cases ha : get_author_name p tok L with
    | error e =>
      cases ha' : get_author_name p tok L' with
      | error e' => rfl
      | ok s => rw [ha, ha'] at hind; exact absurd hind (by simp [exceptOk])
    | ok s =>
      cases ha' : get_author_name p tok L' with
      | error e' => rw [ha, ha'] at hind; exact absurd hind (by simp [exceptOk])
      | ok s' =>
        dsimp only
        cases hpid : check_none_or_string (wGet (wGet p "data" (.obj [])) "page_id" .null) with
        | error e => rfl
        | ok pid? =>
          dsimp only
          by_cases hp : pid?.getD "" ≠ ""
          · simp only [if_pos hp]
            rfl
          · simp only [if_neg hp]
            rfl

theorem props_comment_updated :
    (∀ p tok L t b, get_comment_updated_message p tok L = .ok (t, b) → t ≠ "" ∧ b ≠ "")
      ∧ (∀ p tok L L', exceptOk (get_comment_updated_message p tok L)
          = exceptOk (get_comment_updated_message p tok L')) := by
  constructor
  · intro p tok L t b h
    unfold get_comment_updated_message at h
    split at h
    · exact absurd h (by simp)
    · split at h
      · exact absurd h (by simp)
      · split at h <;>
          (dsimp only at h
           split at h <;>
             (injection h with h'
              rw [Prod.mk.injEq] at h'
              obtain ⟨ht, hb⟩ := h'
              subst ht
              subst hb
              constructor
              · first
                  | exact append_ne_empty_left _ _ (by decide)
                  | decide
              · first
                  | exact chain4 _ _ _ _ _ (by decide)
                  | exact chain2 _ _ _ (by decide)
                  | decide))
  · intro p tok L L'
    have hind := author_ok_indep p tok L L'
    unfold get_comment_updated_message
    cases ha : get_author_name p tok L with
    | error e =>
      cases ha' : get_author_name p tok L' with
      | error e' => rfl
      | ok s => rw [ha, ha'] at hind; exact absurd hind (by simp [exceptOk])
    | ok s =>
      cases ha' : get_author_name p tok L' with
      | error e' => rw [ha, ha'] at hind; exact absurd hind (by simp [exceptOk])
      | ok s' =>
        dsimp only
        cases hpid : check_none_or_string (wGet (wGet p "data" (.obj [])) "page_id" .null) with
        | error e => rfl
        | ok pid? =>
          dsimp only
          by_cases hp : pid?.getD "" ≠ ""
          · simp only [if_pos hp]
            rfl
          · simp only [if_neg hp]
            rfl

theorem get_author_name_falsy (p : Json) (tok : String) (L : Lookup)
    (h : pyTruthy (wGet p "authors" .null) = false) :
    get_author_name p tok L = .ok "" := by
  simp [get_author_name, h]

theorem get_author_name_eq_display (p : Json) (tok : String) (L : Lookup)
    (l : List (String × String)) (hl : tameAuthors (wGet p "authors" .null) = .ok l) :
    get_author_name p tok L = .ok (authorDisplay tok L l) := by
  unfold get_author_name
  cases htr : pyTruthy (wGet p "authors" .null) with
  | false =>
    have hnil : l = [] := by
      cases hj : wGet p "authors" .null with
      | arr l' =>
        rw [hj] at hl htr
        cases l' with
        | nil =>
          simp only [tameAuthors, tameAuthorList] at hl
          injection hl with h'
          exact h'.symm
        | cons a as => simp [pyTruthy] at htr
      | null => rw [hj] at hl; exact absurd hl (by simp [tameAuthors])
      | bool b => rw [hj] at hl; exact absurd hl (by simp [tameAuthors])
      | num n => rw [hj] at hl; exact absurd hl (by simp [tameAuthors])
      | str s => rw [hj] at hl; exact absurd hl (by simp [tameAuthors])
      | obj o => rw [hj] at hl; exact absurd hl (by simp [tameAuthors])
    subst hnil
    simp [htr, authorDisplay]
  | true =>
    simp only [htr, if_true, hl]
    cases l with
    | nil => rfl
    | cons a rest =>
      by_cases hid : a.1 = ""
      · simp [authorDisplay, hid]
      · by_cases hlen : rest.length ≥ 1 <;> simp [authorDisplay, hid, hlen]

theorem tameAuthorEntry_error_eq (x : Json) (e : PyErr)
    (h : tameAuthorEntry x = .error e) : e = .validationError := by
  unfold tameAuthorEntry at h
  split at h <;> try (split at h)
  all_goals simp_all

theorem tameAuthorList_error (l : List Json)
    (hex : ∃ x ∈ l, tameAuthorEntry x = .error .validationError) :
    tameAuthorList l = .error .validationError := by
  induction l with
  | nil =>
    obtain ⟨x, hx, _⟩ := hex
    exact absurd hx (List.not_mem_nil x)
  | cons a as ih =>
    obtain ⟨x, hx, hbad⟩ := hex
    unfold tameAuthorList
    cases ha : tameAuthorEntry a with
    | error e =>
      rw [tameAuthorEntry_error_eq a e ha]
    | ok v =>
      rcases List.mem_cons.mp hx with rfl | hx'
      · rw [ha] at hbad; exact absurd hbad (by simp)
      · rw [ih ⟨x, hx', hbad⟩]

theorem titleTextOfProp_ok (v : Json) (h : spanOk v = true) :
    titleTextOfProp v = .ok (specTitleText v) := by
  cases v with
  | null => rfl
  | bool b => rfl
  | num n => rfl
  | str s => rfl
  | arr l => rfl
  | obj pv =>
    unfold spanOk at h
    unfold titleTextOfProp specTitleText
    cases hty : isStrEq ((plookup pv "type").getD Json.null) "title"
    · simp [hty]
    · simp only [hty] at h ⊢
      cases htl : (plookup pv "title").getD (Json.arr []) with
      | arr tl =>
        cases tl with
        | nil => simp
        | cons s ss =>
          cases s with
          | obj sp =>
            cases hpt : pyTruthy ((plookup sp "plain_text").getD Json.null) <;> simp [hpt]
          | null => rw [htl] at h; simp at h
          | bool b => rw [htl] at h; simp at h
          | num n => rw [htl] at h; simp at h
          | str t => rw [htl] at h; simp at h
          | arr l2 => rw [htl] at h; simp at h
      | null => simp
      | bool b => simp
      | num n => simp
      | str t => simp
      | obj o => simp


theorem plookup_mem (props : List (String × Json)) (k : String) (v : Json)
    (h : plookup props k = some v) : v ∈ props.map Prod.snd := by
  unfold plookup at h
  cases hf : props.find? (fun kv => kv.1 == k) with
  | none => rw [hf] at h; simp at h
  | some kv =>
    rw [hf] at h
    simp at h
    subst h
    exact List.mem_map_of_mem _ (List.mem_of_find?_eq_some hf)

theorem any_eq_false_of_plookup_none (props : List (String × Json)) (k : String)
    (h : plookup props k = none) : props.any (fun kv => kv.1 == k) = false := by
  unfold plookup at h
  cases hf : props.find? (fun kv => kv.1 == k) with
  | some kv => rw [hf] at h; simp at h
  | none =>
    rw [List.find?_eq_none] at hf
    simp only [List.any_eq_false]
    exact fun kv hkv => by simpa using hf kv hkv

theorem any_eq_true_of_plookup_some (props : List (String × Json)) (k : String) (v : Json)
    (h : plookup props k = some v) : props.any (fun kv => kv.1 == k) = true := by
  unfold plookup at h
  cases hf : props.find? (fun kv => kv.1 == k) with
  | none => rw [hf] at h; simp at h
  | some kv =>
    have hp := List.find?_some hf
    refine List.any_eq_true.mpr ⟨kv, List.mem_of_find?_eq_some hf, ?_⟩
    simpa using hp

theorem pageLoop1_spec (props : List (String × Json))
    (hwf : ∀ v ∈ props.map Prod.snd, spanOk v = true) :
    ∀ names, pageLoop1 (.obj props) names
      = .ok (names.findSome? fun n => (plookup props n).bind specTitleText) := by
  intro names
  induction names with
  | nil => rfl
  | cons n ns ih =>
    unfold pageLoop1
    rw [List.findSome?_cons]
    cases hfind : plookup props n with
    | none =>
      have hany := any_eq_false_of_plookup_none props n hfind
      simp only [pyContains, hany, Option.none_bind]
      exact ih
    | some v =>
      have hany := any_eq_true_of_plookup_some props n v hfind
      have htt := titleTextOfProp_ok v (hwf v (plookup_mem props n v hfind))
      simp only [pyContains, hany, pyIndex, hfind, htt, Option.some_bind]
      cases hst : specTitleText v with
      | some t => simp
      | none => simpa using ih

theorem pageLoop2_spec : ∀ vs : List Json, (∀ v ∈ vs, spanOk v = true) →
    pageLoop2 vs = .ok (vs.findSome? specTitleText) := by
  intro vs
  induction vs with
  | nil => intro _; rfl
  | cons v vs ih =>
    intro hwf
    unfold pageLoop2
    rw [List.findSome?_cons, titleTextOfProp_ok v (hwf v (List.mem_cons_self v vs))]
    cases hst : specTitleText v with
    | some t => simp
    | none => simpa using ih (fun u hu => hwf u (List.mem_cons_of_mem _ hu))

/-- Claim C8: for every fetched page record carrying a property map
(whose title-typed spans are well formed), extract_page_title returns
exactly what the specification describes: first the common names title,
Title, Name, name in that order, each accepted only when typed "title"
and yielding non-empty first-span text; then the scan over all property
values in order; and the literal "Untitled Page" when nothing yields
text. -/
theorem claim_C8_page_title_extraction (pd : List (String × Json)) (props : List (String × Json))
    (hlk : plookup pd "properties" = some (.obj props))
    (hwf : ∀ v ∈ props.map Prod.snd, spanOk v = true) :
    extract_page_title (.obj pd)
      = .ok ((specPageTitleSearch props).getD (.str "Untitled Page")) := by
  have hne : pd ≠ [] := by
    intro h
    subst h
    simp [plookup] at hlk
  have htr : pyTruthy (.obj pd) = true := by
    cases pd with
    | nil => exact absurd rfl hne
    | cons a as => rfl
  have hany := any_eq_true_of_plookup_some pd "properties" (.obj props) hlk
  unfold extract_page_title
  simp only [htr, Bool.true_eq_false, if_false, pyContains, hany, pyGetAttrD, hlk,
    Option.getD_some]
  rw [pageLoop1_spec props hwf]
  unfold specPageTitleSearch commonTitleNames
  cases hs1 : (["title", "Title", "Name", "name"].findSome?
      fun n => (plookup props n).bind specTitleText) with
  | some t => simp
  | none =>
    simp only [pyValues]
    rw [pageLoop2_spec _ hwf]
    cases hs2 : props.map Prod.snd |>.findSome? specTitleText with
    | some t => simp
    | none => simp

/-- Claim C1: on the formatter path (non-handshake payload, known event
type, successful formatter), the final topic produced by dispatch is the
user override when it is non-empty; otherwise the fixed literal "Notion"
when map_pages_to_topics is false; otherwise the formatter topic hint
verbatim.  The body is passed through unchanged. -/
theorem claim_C1_topic_routing (p : Json) (tok : String) (ov : Option String) (flag : Bool)
    (L : Lookup) (et : String) (f : Formatter) (hint body : String)
    (hv : is_verification p = .ok false)
    (ht : wGet p "type" .null = .str et)
    (hf : lookupMapper et = some f)
    (hfmt : f p tok L = .ok (hint, body)) :
    (∀ s, ov = some s → s ≠ "" → api_notion_webhook p tok ov flag L = .ok (s, body))
      ∧ ((ov = none ∨ ov = some "") → flag = false →
          api_notion_webhook p tok ov flag L = .ok ("Notion", body))
      ∧ ((ov = none ∨ ov = some "") → flag = true →
          api_notion_webhook p tok ov flag L = .ok (hint, body)) := by
  have hapi : api_notion_webhook p tok ov flag L
      = .ok ((if ov.getD "" ≠ "" then ov.getD ""
              else if flag = false then "Notion" else hint), body) := by
    unfold api_notion_webhook
    rw [hv, ht]
    simp only [check_string, hf, hfmt]
  refine ⟨?_, ?_, ?_⟩
  · intro s hs hne
    subst hs
    rw [hapi]
    simp [hne]
  · intro ho hfl
    subst hfl
    rw [hapi]
    rcases ho with rfl | rfl <;> simp
  · intro ho hfl
    subst hfl
    rw [hapi]
    rcases ho with rfl | rfl <;> simp

/-- Witness for claim C1: a concrete page.created payload with override
"MyTopic" and flag false is delivered to topic "MyTopic". -/
theorem claim_C1_witness :
    api_notion_webhook
      (.obj [("type", .str "page.created"), ("entity", .obj [("id", .str "p1")])])
      "" (some "MyTopic") false L0
      = .ok ("MyTopic", "New page **p1** was created") :=
  (claim_C1_topic_routing
      (.obj [("type", .str "page.created"), ("entity", .obj [("id", .str "p1")])])
      "" (some "MyTopic") false L0 "page.created"
      get_page_created_message "page: p1" "New page **p1** was created"
      rfl rfl rfl rfl).1 "MyTopic" rfl (by decide)

/-- Claim C2 (amended): dispatch treats a payload as a verification
handshake exactly when its verification_token field is present with a
string value, the empty string included; the delivered topic is the fixed
literal "Notion" and the body embeds the token in the fixed template,
regardless of every other field and of the lookup oracle (no formatter or
event-type processing).  A missing or null field is not a handshake. -/
theorem claim_C2_verification_handshake :
    (∀ p tok ov flag L s, wGet p "verification_token" .null = .str s →
        api_notion_webhook p tok ov flag L
          = .ok ("Notion", NOTION_VERIFICATION_TOKEN_MESSAGE s))
      ∧ (∀ p, wGet p "verification_token" .null = .null → is_verification p = .ok false) := by
  constructor
  · intro p tok ov flag L s hs
    unfold api_notion_webhook is_verification handle_verification_request
    rw [hs]
    simp [check_none_or_string, check_string]
  · intro p hp
    unfold is_verification
    rw [hp]
    rfl

/-- Counterexample to claim C2 as stated: a payload whose
verification_token is the EMPTY string (hence not a non-empty token) is
nevertheless treated as a handshake, and dispatch delivers the
verification template instead of processing the page.created event the
payload also carries. -/
theorem claim_C2_counterexample :
    wGet (.obj [("verification_token", .str ""), ("type", .str "page.created"),
        ("entity", .obj [("id", .str "p1")])]) "verification_token" .null = .str ""
      ∧ is_verification (.obj [("verification_token", .str ""), ("type", .str "page.created"),
          ("entity", .obj [("id", .str "p1")])]) = .ok true
      ∧ api_notion_webhook (.obj [("verification_token", .str ""), ("type", .str "page.created"),
          ("entity", .obj [("id", .str "p1")])]) "" none false L0
        = .ok ("Notion", NOTION_VERIFICATION_TOKEN_MESSAGE "") :=
  ⟨rfl, rfl, rfl⟩

/-- Witness for claim C2 (amended): a concrete token "TOK" payload is
delivered as the verification message, and a payload without the field is
not a handshake. -/
theorem claim_C2_witness :
    api_notion_webhook (.obj [("verification_token", .str "TOK")]) "" none false L0
        = .ok ("Notion", NOTION_VERIFICATION_TOKEN_MESSAGE "TOK")
      ∧ is_verification (.obj [("type", .str "page.created")]) = .ok false :=
  ⟨claim_C2_verification_handshake.1 _ "" none false L0 "TOK" rfl,
   claim_C2_verification_handshake.2 _ rfl⟩

/-- Claim C3: for every non-verification payload whose type string is not
a key of the formatter table, dispatch raises the unsupported-event-type
error carrying that exact type value; the Except error result means no
message delivery occurs. -/
theorem claim_C3_unknown_event_type (p : Json) (tok : String) (ov : Option String)
    (flag : Bool) (L : Lookup) (et : String)
    (hv : is_verification p = .ok false)
    (ht : wGet p "type" .null = .str et)
    (hf : lookupMapper et = none) :
    api_notion_webhook p tok ov flag L = .error (.unsupportedEventType et) := by
  unfold api_notion_webhook
  rw [hv, ht]
  simp [check_string, hf]

/-- Witness for claim C3 at the concrete unknown type "foo.bar". -/
theorem claim_C3_witness :
    api_notion_webhook (.obj [("type", .str "foo.bar")]) "" none false L0
      = .error (.unsupportedEventType "foo.bar") :=
  claim_C3_unknown_event_type _ "" none false L0 "foo.bar" rfl rfl rfl


def LA : Lookup :=
  ⟨fun _ => none, fun _ => none, fun _ => some (.obj [("name", .str "Alice")])⟩

/-- Claim C4 (amended): every external lookup failure is absorbed inside
the resolvers (failed page, database and user fetches fall back to the
raw id or to "user: id"), and whether a formatter aborts never depends on
the lookup oracle; however, besides an unrecognized event type, a request
can also abort with a validation error raised on payload fields consumed
inside formatters (missing entity id, malformed authors entries), not
only on fields consumed directly by the dispatch entry point. -/
theorem claim_C4_lookup_failures_absorbed :
    (∀ tok pid L, tok ≠ "" → L.page pid = none → get_page_title tok pid L = pid)
      ∧ (∀ tok did L, tok ≠ "" → L.db did = none → get_database_title tok did L = did)
      ∧ (∀ tok uid L, uid ≠ "" → tok ≠ "" → L.user uid = none →
          get_user_name tok uid L = "user: " ++ uid)
      ∧ (∀ nm f, (nm, f) ∈ EVENT_TO_FUNCTION_MAPPER →
          ∀ p tok L LB, exceptOk (f p tok L) = exceptOk (f p tok LB)) := by
  refine ⟨?_, ?_, ?_, ?_⟩
  · intro tok pid L htok hL
    simp [get_page_title, htok, hL]
  · intro tok did L htok hL
    simp [get_database_title, htok, hL]
  · intro tok uid L huid htok hL
    simp [get_user_name, huid, htok, hL]
  · have hall : ∀ q ∈ EVENT_TO_FUNCTION_MAPPER,
        ∀ p tok L LB, exceptOk (q.2 p tok L) = exceptOk (q.2 p tok LB) := by
      refine List.forall_mem_cons.mpr ⟨props_page_content_updated.2.1, ?_⟩
      refine List.forall_mem_cons.mpr ⟨props_page_created.2.1, ?_⟩
      refine List.forall_mem_cons.mpr ⟨props_page_deleted.2.1, ?_⟩
      refine List.forall_mem_cons.mpr ⟨props_page_locked.2.1, ?_⟩
      refine List.forall_mem_cons.mpr ⟨props_page_moved.2.1, ?_⟩
      refine List.forall_mem_cons.mpr ⟨props_page_properties_updated.2.1, ?_⟩
      refine List.forall_mem_cons.mpr ⟨props_page_undeleted.2.1, ?_⟩
      refine List.forall_mem_cons.mpr ⟨props_page_unlocked.2.1, ?_⟩
      refine List.forall_mem_cons.mpr ⟨props_database_content_updated.2.1, ?_⟩
      refine List.forall_mem_cons.mpr ⟨props_database_created.2.1, ?_⟩
      refine List.forall_mem_cons.mpr ⟨props_database_deleted.2.1, ?_⟩
      refine List.forall_mem_cons.mpr ⟨props_database_moved.2.1, ?_⟩
      refine List.forall_mem_cons.mpr ⟨props_database_schema_updated.2.1, ?_⟩
      refine List.forall_mem_cons.mpr ⟨props_database_undeleted.2.1, ?_⟩
      refine List.forall_mem_cons.mpr ⟨props_data_source_content_updated.2.1, ?_⟩
      refine List.forall_mem_cons.mpr ⟨props_data_source_created.2.1, ?_⟩
      refine List.forall_mem_cons.mpr ⟨props_data_source_deleted.2.1, ?_⟩
      refine List.forall_mem_cons.mpr ⟨props_data_source_moved.2.1, ?_⟩
      refine List.forall_mem_cons.mpr ⟨props_data_source_schema_updated.2.1, ?_⟩
      refine List.forall_mem_cons.mpr ⟨props_data_source_undeleted.2.1, ?_⟩
      refine List.forall_mem_cons.mpr ⟨props_comment_created.2, ?_⟩
      refine List.forall_mem_cons.mpr ⟨props_comment_deleted.2, ?_⟩
      refine List.forall_mem_cons.mpr ⟨props_comment_updated.2, ?_⟩
      exact fun q hq => absurd hq (List.not_mem_nil q)
    exact fun nm f hmem => hall (nm, f) hmem

/-- Counterexample to claim C4 as stated: the payload with the KNOWN type
page.created but no entity field aborts the request with a validation
error raised inside the formatter, even though the claim allows aborts
only for unknown types or fields consumed directly by dispatch. -/
theorem claim_C4_counterexample :
    (lookupMapper "page.created").isSome = true
      ∧ api_notion_webhook (.obj [("type", .str "page.created")]) "" none false L0
          = .error .validationError :=
  ⟨rfl, rfl⟩

/-- Witness for claim C4 (amended) at concrete inputs: failed lookups
fall back to ids, and the success of a formatter is unchanged when the
oracle changes. -/
theorem claim_C4_witness :
    get_page_title "tok" "p1" L0 = "p1"
      ∧ get_database_title "tok" "d1" L0 = "d1"
      ∧ get_user_name "tok" "u1" L0 = "user: " ++ "u1"
      ∧ exceptOk (get_page_created_message (.obj [("entity", .obj [("id", .str "p9")])]) "" L0)
          = exceptOk (get_page_created_message (.obj [("entity", .obj [("id", .str "p9")])]) "" LA) :=
  ⟨claim_C4_lookup_failures_absorbed.1 "tok" "p1" L0 (by decide) rfl,
   claim_C4_lookup_failures_absorbed.2.1 "tok" "d1" L0 (by decide) rfl,
   claim_C4_lookup_failures_absorbed.2.2.1 "tok" "u1" L0 (by decide) (by decide) rfl,
   claim_C4_lookup_failures_absorbed.2.2.2 "page.created" get_page_created_message
     (List.mem_cons_of_mem _ (List.mem_cons_self _ _))
     (.obj [("entity", .obj [("id", .str "p9")])]) "" L0 LA⟩

/-- Claim C9: every formatter in the event-to-formatter table, on every
payload, token and oracle on which it returns, returns a pair whose topic
hint and body are both non-empty strings. -/
theorem claim_C9_formatters_nonempty :
    ∀ nm f, (nm, f) ∈ EVENT_TO_FUNCTION_MAPPER →
      ∀ p tok L t b, f p tok L = .ok (t, b) → t ≠ "" ∧ b ≠ "" := by
  have hall : ∀ q ∈ EVENT_TO_FUNCTION_MAPPER,
      ∀ p tok L t b, q.2 p tok L = .ok (t, b) → t ≠ "" ∧ b ≠ "" := by
    refine List.forall_mem_cons.mpr ⟨props_page_content_updated.1, ?_⟩
    refine List.forall_mem_cons.mpr ⟨props_page_created.1, ?_⟩
    refine List.forall_mem_cons.mpr ⟨props_page_deleted.1, ?_⟩
    refine List.forall_mem_cons.mpr ⟨props_page_locked.1, ?_⟩
    refine List.forall_mem_cons.mpr ⟨props_page_moved.1, ?_⟩
    refine List.forall_mem_cons.mpr ⟨props_page_properties_updated.1, ?_⟩
    refine List.forall_mem_cons.mpr ⟨props_page_undeleted.1, ?_⟩
    refine List.forall_mem_cons.mpr ⟨props_page_unlocked.1, ?_⟩
    refine List.forall_mem_cons.mpr ⟨props_database_content_updated.1, ?_⟩
    refine List.forall_mem_cons.mpr ⟨props_database_created.1, ?_⟩
    refine List.forall_mem_cons.mpr ⟨props_database_deleted.1, ?_⟩
    refine List.forall_mem_cons.mpr ⟨props_database_moved.1, ?_⟩
    refine List.forall_mem_cons.mpr ⟨props_database_schema_updated.1, ?_⟩
    refine List.forall_mem_cons.mpr ⟨props_database_undeleted.1, ?_⟩
    refine List.forall_mem_cons.mpr ⟨props_data_source_content_updated.1, ?_⟩
    refine List.forall_mem_cons.mpr ⟨props_data_source_created.1, ?_⟩
    refine List.forall_mem_cons.mpr ⟨props_data_source_deleted.1, ?_⟩
    refine List.forall_mem_cons.mpr ⟨props_data_source_moved.1, ?_⟩
    refine List.forall_mem_cons.mpr ⟨props_data_source_schema_updated.1, ?_⟩
    refine List.forall_mem_cons.mpr ⟨props_data_source_undeleted.1, ?_⟩
    refine List.forall_mem_cons.mpr ⟨props_comment_created.1, ?_⟩
    refine List.forall_mem_cons.mpr ⟨props_comment_deleted.1, ?_⟩
    refine List.forall_mem_cons.mpr ⟨props_comment_updated.1, ?_⟩
    exact fun q hq => absurd hq (List.not_mem_nil q)
  exact fun nm f hmem => hall (nm, f) hmem

/-- Witness for claim C9: the first table entry applied to a concrete
payload returns a non-empty topic and body. -/
theorem claim_C9_witness :
    ("page: p1" : String) ≠ "" ∧ ("Page **p1** content was updated" : String) ≠ "" :=
  claim_C9_formatters_nonempty "page.content_updated" get_page_content_updated_message
    (List.mem_cons_self _ _)
    (.obj [("entity", .obj [("id", .str "p1")])]) "" L0
    "page: p1" "Page **p1** content was updated" rfl


/-- Claim C5 (amended): for every page, database and data-source
formatter, when the entity id tames to the EMPTY STRING the formatter
returns the generic fallback pair specific to that event type without any
lookup (the result is the same for every oracle); when entity or
entity.id is genuinely absent the formatter instead propagates a
validation error. -/
theorem claim_C5_empty_entity_id_fallback :
    ∀ nm f fb, (nm, f) ∈ EVENT_TO_FUNCTION_MAPPER → (nm, fb) ∈ ENTITY_EVENT_FALLBACKS →
      ∀ p tok L,
        (entityId p = .ok "" → f p tok L = .ok fb)
          ∧ (∀ e, entityId p = .error e → f p tok L = .error e) := by
  have hall : ∀ q ∈ EVENT_TO_FUNCTION_MAPPER, ∀ fb, (q.1, fb) ∈ ENTITY_EVENT_FALLBACKS →
      ∀ p tok L,
        (entityId p = .ok "" → q.2 p tok L = .ok fb)
          ∧ (∀ e, entityId p = .error e → q.2 p tok L = .error e) := by
    refine List.forall_mem_cons.mpr ⟨?_, ?_⟩
    · intro fb hfb p tok L
      simp [ENTITY_EVENT_FALLBACKS] at hfb
      subst hfb
      exact ⟨props_page_content_updated.2.2.1 p tok L, props_page_content_updated.2.2.2 p tok L⟩
    refine List.forall_mem_cons.mpr ⟨?_, ?_⟩
    · intro fb hfb p tok L
      simp [ENTITY_EVENT_FALLBACKS] at hfb
      subst hfb
      exact ⟨props_page_created.2.2.1 p tok L, props_page_created.2.2.2 p tok L⟩
    refine List.forall_mem_cons.mpr ⟨?_, ?_⟩
    · intro fb hfb p tok L
      simp [ENTITY_EVENT_FALLBACKS] at hfb
      subst hfb
      exact ⟨props_page_deleted.2.2.1 p tok L, props_page_deleted.2.2.2 p tok L⟩
    refine List.forall_mem_cons.mpr ⟨?_, ?_⟩
    · intro fb hfb p tok L
      simp [ENTITY_EVENT_FALLBACKS] at hfb
      subst hfb
      exact ⟨props_page_locked.2.2.1 p tok L, props_page_locked.2.2.2 p tok L⟩
    refine List.forall_mem_cons.mpr ⟨?_, ?_⟩
    · intro fb hfb p tok L
      simp [ENTITY_EVENT_FALLBACKS] at hfb
      subst hfb
      exact ⟨props_page_moved.2.2.1 p tok L, props_page_moved.2.2.2 p tok L⟩
    refine List.forall_mem_cons.mpr ⟨?_, ?_⟩
    · intro fb hfb p tok L
      simp [ENTITY_EVENT_FALLBACKS] at hfb
      subst hfb
      exact ⟨props_page_properties_updated.2.2.1 p tok L, props_page_properties_updated.2.2.2 p tok L⟩
    refine List.forall_mem_cons.mpr ⟨?_, ?_⟩
    · intro fb hfb p tok L
      simp [ENTITY_EVENT_FALLBACKS] at hfb
      subst hfb
      exact ⟨props_page_undeleted.2.2.1 p tok L, props_page_undeleted.2.2.2 p tok L⟩
    refine List.forall_mem_cons.mpr ⟨?_, ?_⟩
    · intro fb hfb p tok L
      simp [ENTITY_EVENT_FALLBACKS] at hfb
      subst hfb
      exact ⟨props_page_unlocked.2.2.1 p tok L, props_page_unlocked.2.2.2 p tok L⟩
    refine List.forall_mem_cons.mpr ⟨?_, ?_⟩
    · intro fb hfb p tok L
      simp [ENTITY_EVENT_FALLBACKS] at hfb
      subst hfb
      exact ⟨props_database_content_updated.2.2.1 p tok L, props_database_content_updated.2.2.2 p tok L⟩
    refine List.forall_mem_cons.mpr ⟨?_, ?_⟩
    · intro fb hfb p tok L
      simp [ENTITY_EVENT_FALLBACKS] at hfb
      subst hfb
      exact ⟨props_database_created.2.2.1 p tok L, props_database_created.2.2.2 p tok L⟩
    refine List.forall_mem_cons.mpr ⟨?_, ?_⟩
    · intro fb hfb p tok L
      simp [ENTITY_EVENT_FALLBACKS] at hfb
      subst hfb
      exact ⟨props_database_deleted.2.2.1 p tok L, props_database_deleted.2.2.2 p tok L⟩
    refine List.forall_mem_cons.mpr ⟨?_, ?_⟩
    · intro fb hfb p tok L
      simp [ENTITY_EVENT_FALLBACKS] at hfb
      subst hfb
      exact ⟨props_database_moved.2.2.1 p tok L, props_database_moved.2.2.2 p tok L⟩
    refine List.forall_mem_cons.mpr ⟨?_, ?_⟩
    · intro fb hfb p tok L
      simp [ENTITY_EVENT_FALLBACKS] at hfb
      subst hfb
      exact ⟨props_database_schema_updated.2.2.1 p tok L, props_database_schema_updated.2.2.2 p tok L⟩
    refine List.forall_mem_cons.mpr ⟨?_, ?_⟩
    · intro fb hfb p tok L
      simp [ENTITY_EVENT_FALLBACKS] at hfb
      subst hfb
      exact ⟨props_database_undeleted.2.2.1 p tok L, props_database_undeleted.2.2.2 p tok L⟩
    refine List.forall_mem_cons.mpr ⟨?_, ?_⟩
    · intro fb hfb p tok L
      simp [ENTITY_EVENT_FALLBACKS] at hfb
      subst hfb
      exact ⟨props_data_source_content_updated.2.2.1 p tok L, props_data_source_content_updated.2.2.2 p tok L⟩
    refine List.forall_mem_cons.mpr ⟨?_, ?_⟩
    · intro fb hfb p tok L
      simp [ENTITY_EVENT_FALLBACKS] at hfb
      subst hfb
      exact ⟨props_data_source_created.2.2.1 p tok L, props_data_source_created.2.2.2 p tok L⟩
    refine List.forall_mem_cons.mpr ⟨?_, ?_⟩
    · intro fb hfb p tok L
      simp [ENTITY_EVENT_FALLBACKS] at hfb
      subst hfb
      exact ⟨props_data_source_deleted.2.2.1 p tok L, props_data_source_deleted.2.2.2 p tok L⟩
    refine List.forall_mem_cons.mpr ⟨?_, ?_⟩
    · intro fb hfb p tok L
      simp [ENTITY_EVENT_FALLBACKS] at hfb
      subst hfb
      exact ⟨props_data_source_moved.2.2.1 p tok L, props_data_source_moved.2.2.2 p tok L⟩
    refine List.forall_mem_cons.mpr ⟨?_, ?_⟩
    · intro fb hfb p tok L
      simp [ENTITY_EVENT_FALLBACKS] at hfb
      subst hfb
      exact ⟨props_data_source_schema_updated.2.2.1 p tok L, props_data_source_schema_updated.2.2.2 p tok L⟩
    refine List.forall_mem_cons.mpr ⟨?_, ?_⟩
    · intro fb hfb p tok L
      simp [ENTITY_EVENT_FALLBACKS] at hfb
      subst hfb
      exact ⟨props_data_source_undeleted.2.2.1 p tok L, props_data_source_undeleted.2.2.2 p tok L⟩
    refine List.forall_mem_cons.mpr ⟨?_, ?_⟩
    · intro fb hfb
      simp [ENTITY_EVENT_FALLBACKS] at hfb
    refine List.forall_mem_cons.mpr ⟨?_, ?_⟩
    · intro fb hfb
      simp [ENTITY_EVENT_FALLBACKS] at hfb
    refine List.forall_mem_cons.mpr ⟨?_, ?_⟩
    · intro fb hfb
      simp [ENTITY_EVENT_FALLBACKS] at hfb
    exact fun q hq => absurd hq (List.not_mem_nil q)
  exact fun nm f fb hmem hfb => hall (nm, f) hmem fb hfb

/-- Counterexample to claim C5 as stated: when the entity id is ABSENT
(entity present but with no id key), get_page_created_message raises a
validation error rather than returning the generic fallback pair. -/
theorem claim_C5_counterexample :
    get_page_created_message (.obj [("entity", .obj []), ("type", .str "page.created")]) "" L0
      = .error .validationError := rfl

/-- Witness for claim C5 (amended): an empty-string entity id yields the
generic page.created fallback pair. -/
theorem claim_C5_witness :
    get_page_created_message (.obj [("entity", .obj [("id", .str "")])]) "" L0
      = .ok ("Notion Page", "New page was created") :=
  (claim_C5_empty_entity_id_fallback "page.created" get_page_created_message
      ("Notion Page", "New page was created")
      (List.mem_cons_of_mem _ (List.mem_cons_self _ _))
      (List.mem_cons_of_mem _ (List.mem_cons_self _ _))
      (.obj [("entity", .obj [("id", .str "")])]) "" L0).1 rfl

/-- Claim C6 (amended): the author resolver returns the empty string when
the authors value is falsy (missing, null or the empty list); when the
list tames successfully the result is exactly authorDisplay: empty when
the first id is empty, otherwise the resolved first author followed, for
lists of length greater than one, by the annotation " (+N other{s})" with
N the number of remaining authors and the plural s exactly when N > 1.
Only the first author id and the list length influence the result. -/
theorem claim_C6_author_resolution :
    ∀ p tok L,
      (pyTruthy (wGet p "authors" .null) = false → get_author_name p tok L = .ok "")
        ∧ (∀ l, tameAuthors (wGet p "authors" .null) = .ok l →
            get_author_name p tok L = .ok (authorDisplay tok L l)) :=
  fun p tok L =>
    ⟨get_author_name_falsy p tok L, fun l hl => get_author_name_eq_display p tok L l hl⟩

/-- Counterexample to claim C6 as stated: a two-author list whose first
author has an empty id resolves to the empty string, with no " (+1
other)" annotation appended. -/
theorem claim_C6_counterexample :
    get_author_name (.obj [("authors", .arr [.obj [("id", .str ""), ("type", .str "person")],
        .obj [("id", .str "u2"), ("type", .str "person")]])]) "tok" L0 = .ok "" := rfl

/-- Witness for claim C6 (amended): a three-author list whose first
author resolves to Alice yields "Alice (+2 others)". -/
theorem claim_C6_witness :
    get_author_name (.obj [("authors", .arr [.obj [("id", .str "u1"), ("type", .str "person")],
        .obj [("id", .str "u2"), ("type", .str "person")],
        .obj [("id", .str "u3"), ("type", .str "person")]])]) "tok" LA
      = .ok "Alice (+2 others)" :=
  (claim_C6_author_resolution
      (.obj [("authors", .arr [.obj [("id", .str "u1"), ("type", .str "person")],
        .obj [("id", .str "u2"), ("type", .str "person")],
        .obj [("id", .str "u3"), ("type", .str "person")]])]) "tok" LA).2
    [("u1", "person"), ("u2", "person"), ("u3", "person")] rfl

/-- Claim C7 (amended): when the authors list tames successfully and the
first author id is the empty string, get_author_name returns the empty
string, not "Notion User"; the literal "Notion User" is produced only by
get_user_name itself when called with an empty id, a call the resolver
never makes because it guards on a non-empty id first. -/
theorem claim_C7_empty_first_author_id :
    (∀ p tok L l, tameAuthors (wGet p "authors" .null) = .ok l →
        l.head?.map Prod.fst = some "" → get_author_name p tok L = .ok "")
      ∧ (∀ tok L, get_user_name tok "" L = "Notion User") := by
  constructor
  · intro p tok L l hl hhead
    rw [get_author_name_eq_display p tok L l hl]
    cases l with
    | nil => simp at hhead
    | cons a rest =>
      simp at hhead
      simp [authorDisplay, hhead]
  · intro tok L
    rfl

/-- Counterexample to claim C7 as stated: a singleton authors list whose
author has an empty id makes get_author_name return the empty string,
which differs from the claimed literal "Notion User". -/
theorem claim_C7_counterexample :
    get_author_name (.obj [("authors", .arr [.obj [("id", .str ""), ("type", .str "person")]])])
        "tok" L0 = .ok ""
      ∧ (Except.ok "" : Except PyErr String) ≠ .ok "Notion User" := by
  refine ⟨rfl, ?_⟩
  intro h
  injection h with h2
  exact absurd h2 (by decide)

/-- Witness for claim C7 (amended) at concrete inputs. -/
theorem claim_C7_witness :
    get_author_name (.obj [("authors", .arr [.obj [("id", .str ""), ("type", .str "bot")]])])
        "t" L0 = .ok ""
      ∧ get_user_name "t" "" L0 = "Notion User" :=
  ⟨claim_C7_empty_first_author_id.1
      (.obj [("authors", .arr [.obj [("id", .str ""), ("type", .str "bot")]])])
      "t" L0 [("", "bot")] rfl rfl,
   claim_C7_empty_first_author_id.2 "t" L0⟩

/-- Claim C10: the author resolver validates every entry of a non-empty
authors list, not only the first: whenever any entry is not a dict with
string id and string type fields, get_author_name raises a validation
error, even when the first entry is well formed. -/
theorem claim_C10_authors_all_validated :
    ∀ p tok L l, wGet p "authors" .null = .arr l → l ≠ [] →
      (∃ x ∈ l, tameAuthorEntry x = .error .validationError) →
      get_author_name p tok L = .error .validationError := by
  intro p tok L l hw hne hex
  have htr : pyTruthy (wGet p "authors" .null) = true := by
    rw [hw]
    cases l with
    | nil => exact absurd rfl hne
    | cons a as => rfl
  have hta : tameAuthors (wGet p "authors" .null) = .error .validationError := by
    rw [hw]
    exact tameAuthorList_error l hex
  rw [get_author_name_error_iff]
  exact ⟨htr, hta⟩

/-- Witness for claim C10: a list whose first entry is well formed and
whose second entry is a bare string raises a validation error. -/
theorem claim_C10_witness :
    get_author_name (.obj [("authors", .arr [.obj [("id", .str "u1"), ("type", .str "person")],
        .str "bad"])]) "tok" L0 = .error .validationError :=
  claim_C10_authors_all_validated
    (.obj [("authors", .arr [.obj [("id", .str "u1"), ("type", .str "person")], .str "bad"])])
    "tok" L0 [.obj [("id", .str "u1"), ("type", .str "person")], .str "bad"] rfl
    (by simp)
    ⟨.str "bad", List.mem_cons_of_mem _ (List.mem_cons_self _ _), rfl⟩

/-- Witness for claim C8: a concrete record whose only title-typed
property is named Name evaluates to its span text. -/
theorem claim_C8_witness :
    extract_page_title (.obj [("properties",
        .obj [("Name", .obj [("type", .str "title"),
          ("title", .arr [.obj [("plain_text", .str "My Page")]])])])])
      = .ok (.str "My Page") :=
  claim_C8_page_title_extraction
    [("properties", .obj [("Name", .obj [("type", .str "title"),
      ("title", .arr [.obj [("plain_text", .str "My Page")]])])])]
    [("Name", .obj [("type", .str "title"),
      ("title", .arr [.obj [("plain_text", .str "My Page")]])])]
    rfl (by decide)


end NotionWebhook
